import Mathlib

/-!
Verification of the "Spread Sheet" Blender addon (src/__init__.py).

The addon mirrors host scene data (objects, pose bones, mesh elements) into
UI row lists, refreshes those lists from a depsgraph-update handler, and
offers batch apply/clear operators.  This file gives a shallow embedding of
the addon's data model and of the functions and operator `execute` methods
the verified properties are about, and proves those properties.

Modelling conventions:
* Transform components are carried by `Int`.  Every embedded operation
  either copies a component verbatim or writes one of the exact float
  constants 0.0 / 1.0, so an integer carrier is faithful for these
  properties (no float arithmetic is embedded).
* Blender `PointerProperty` references (`item.obj`, `item.armature_obj`,
  `context.active_object`) are modelled as the referenced object's name,
  re-resolved by lookup in the host object table; `none` models a null
  pointer.  Blender keeps object names unique, and bone names unique
  within an armature; mutation of a referenced entity is modelled as
  update-by-name in the host table.
* Host state and addon state (scene collections, scene flags, the module
  level snapshot globals) are flattened into one `State` record; the
  embedded functions are state transformers.
* Host operations of Blender itself (`bpy.ops.object.transform_apply`,
  `select_all`, `select_set`) are modelled after the spec's glossary
  ("fold the current transform into the data and reset that channel to
  identity, for the selected objects").  Whether `transform_apply` raises
  is an oracle parameter of the operator embedding, since the exception
  originates in the host.
* Python `dict` built by a comprehension is modelled as an association
  list where a later binding of a key overwrites an earlier one
  (`dictGet` scans for the last binding); Python `set` / `dict` equality
  is modelled extensionally (`setEqb` / `dictEqb`).
* Python `sorted(..., key=name)` is modelled by a stable insertion sort
  on the name key; Python `int(...)` applied to the addon's own
  `str(index)` output is modelled by a decimal digit parser.
-/

namespace Spreadsheet

/-- 3-component float vector (location / euler rotation / scale). -/
structure Vec3 where
  x : Int
  y : Int
  z : Int
deriving DecidableEq, Repr

/-- 4-component quaternion stored in WXYZ order as in Blender. -/
structure Vec4 where
  w : Int
  x : Int
  y : Int
  z : Int
deriving DecidableEq, Repr

def Vec3.zero : Vec3 := ⟨0, 0, 0⟩

def Vec3.one : Vec3 := ⟨1, 1, 1⟩

def Vec4.zero : Vec4 := ⟨0, 0, 0, 0⟩

/-- The identity quaternion (1, 0, 0, 0). -/
def Vec4.identity : Vec4 := ⟨1, 0, 0, 0⟩

/-- Rotation representation mode of an object or pose bone; the source only
ever distinguishes 'QUATERNION' from everything else (the euler modes). -/
inductive RotMode
  | quaternion
  | euler
deriving DecidableEq, Repr

/-- Host object type; the source tests for 'MESH' and 'ARMATURE'. -/
inductive ObjType
  | mesh
  | armature
  | otherType
deriving DecidableEq, Repr

/-- Per-object interaction mode (`obj.mode` in the host). -/
inductive OMode
  | objectMode
  | editMode
  | poseMode
deriving DecidableEq, Repr

/-- Context interaction mode (`context.mode`): 'OBJECT', 'POSE',
'EDIT_MESH', or any other mode string. -/
inductive Mode
  | object
  | pose
  | editMesh
  | otherMode
deriving DecidableEq, Repr

/-- A pose bone of an armature, with its pose-channel values. -/
structure PoseBone where
  name : String
  selected : Bool
  rotationMode : RotMode
  location : Vec3
  rotationEuler : Vec3
  rotationQuaternion : Vec4
  scale : Vec3
deriving DecidableEq, Repr

/-- A bmesh vertex: local coordinate and selection flag. -/
structure MeshVert where
  co : Vec3
  select : Bool
deriving DecidableEq, Repr

/-- A bmesh edge: smoothness and selection flag. -/
structure MeshEdge where
  smooth : Bool
  select : Bool
deriving DecidableEq, Repr

/-- A bmesh face: selection flag only (the addon shows just the index). -/
structure MeshFace where
  select : Bool
deriving DecidableEq, Repr

/-- A host scene object (an entry of `bpy.data.objects`).  Mesh element
sequences and pose bones are carried by every object and simply empty when
the object is not of the corresponding type. -/
structure HostObject where
  name : String
  objType : ObjType
  objMode : OMode
  selected : Bool
  rotationMode : RotMode
  location : Vec3
  rotationEuler : Vec3
  rotationQuaternion : Vec4
  scale : Vec3
  verts : List MeshVert
  edges : List MeshEdge
  faces : List MeshFace
  poseBones : List PoseBone
deriving DecidableEq, Repr

/-- Rotation component of the change-detection snapshot tuple: the Python
code stores `tuple(rotation_quaternion)` (length 4) for quaternion mode and
`tuple(rotation_euler)` (length 3) otherwise, which never compare equal. -/
inductive RotVal
  | quat (q : Vec4)
  | eul (e : Vec3)
deriving DecidableEq, Repr

/-- Snapshot entry value: (location, rotation, scale). -/
abbrev TransTuple := Vec3 × RotVal × Vec3

/-- Mirror row for one object (`class SpreadSheetItem`).  Fresh rows carry
the property defaults: null pointer, zero vectors, checkboxes `True`. -/
structure SpreadSheetItem where
  obj : Option String
  location : Vec3
  rotation : Vec3
  rotation_quaternion : Vec4
  scale : Vec3
  chk_loc : Bool
  chk_rot : Bool
  chk_scale : Bool
deriving DecidableEq, Repr

/-- Mirror row for one pose bone (`class BoneSpreadSheetItem`). -/
structure BoneSpreadSheetItem where
  armature_obj : Option String
  bone_name : String
  bone_location : Vec3
  bone_rotation : Vec3
  bone_rotation_quaternion : Vec4
  bone_scale : Vec3
  bone_chk_loc : Bool
  bone_chk_rot : Bool
  bone_chk_scale : Bool
deriving DecidableEq, Repr

/-- Mirror row for one mesh element (`class MeshElementItem`); the element
index is stored as a string, exactly as in the source. -/
structure MeshElementItem where
  index : String
  source_object : String
  x : Int
  y : Int
  z : Int
  is_sharp : Bool
deriving DecidableEq, Repr

/-- Whole-program state: host scene data (`bpy` side), the addon's scene
collections and flags, and the module-level change-detection globals. -/
structure State where
  mode : Mode
  objects : List HostObject
  activeObject : Option String
  meshSelectVert : Bool
  meshSelectEdge : Bool
  meshSelectFace : Bool
  spreadsheet_items : List SpreadSheetItem
  bone_items : List BoneSpreadSheetItem
  vertex_items : List MeshElementItem
  show_spreadsheet_in_edit_mode : Bool
  spreadsheet_show_world_coords : Bool
  active_only_loc : Bool
  active_only_rot : Bool
  active_only_scale : Bool
  active_only_bone_loc : Bool
  active_only_bone_rot : Bool
  active_only_bone_scale : Bool
  lastSelectedNames : List String
  lastTransforms : List (String × TransTuple)
deriving DecidableEq, Repr

/-- `context.selected_objects`. -/
def selectedObjects (s : State) : List HostObject :=
  s.objects.filter (·.selected)

/-- `bpy.data.objects.get(n)`. -/
def findObj (s : State) (n : String) : Option HostObject :=
  s.objects.find? (fun o => o.name == n)

/-- `context.active_object` when it exists and is an armature
(the guard `context.active_object and context.active_object.type ==
'ARMATURE'` and its negation used by the refreshers). -/
def activeArmature (s : State) : Option HostObject :=
  match s.activeObject with
  | none => none
  | some n =>
    match findObj s n with
    | none => none
    | some o => if o.objType = ObjType.armature then some o else none

/-- `context.selected_pose_bones` of the active armature. -/
def selectedPoseBones (arm : HostObject) : List PoseBone :=
  arm.poseBones.filter (·.selected)

/-- Rotation component of an object's snapshot tuple. -/
def HostObject.rotVal (o : HostObject) : RotVal :=
  if o.rotationMode = RotMode.quaternion then RotVal.quat o.rotationQuaternion
  else RotVal.eul o.rotationEuler

/-- Snapshot tuple of an object, as built by `selection_change_handler`. -/
def HostObject.transTuple (o : HostObject) : TransTuple :=
  (o.location, o.rotVal, o.scale)

/-- Rotation component of a pose bone's snapshot tuple. -/
def PoseBone.rotVal (b : PoseBone) : RotVal :=
  if b.rotationMode = RotMode.quaternion then RotVal.quat b.rotationQuaternion
  else RotVal.eul b.rotationEuler

/-- Snapshot tuple of a pose bone, as built by `selection_change_handler`. -/
def PoseBone.transTuple (b : PoseBone) : TransTuple :=
  (b.location, b.rotVal, b.scale)

/-- Lookup in a Python dict built from an association list by successive
insertion: a later binding of the same key overwrites an earlier one, so
the scan prefers the rightmost binding. -/
def dictGet {α : Type} : List (String × α) → String → Option α
  | [], _ => none
  | (k, v) :: d, n =>
    match dictGet d n with
    | some v' => some v'
    | none => if k = n then some v else none

/-- Python `set` equality for sets represented by their element lists. -/
def setEqb (a b : List String) : Bool :=
  a.all (fun n => b.contains n) && b.all (fun n => a.contains n)

/-- Keys of an association-list dict. -/
def dictKeys {α : Type} (d : List (String × α)) : List String :=
  d.map Prod.fst

/-- Python `dict` equality: same key set, same value at each key. -/
def dictEqb {α : Type} [DecidableEq α] (d1 d2 : List (String × α)) : Bool :=
  (dictKeys d1).all (fun k => dictGet d1 k == dictGet d2 k) &&
  (dictKeys d2).all (fun k => dictGet d1 k == dictGet d2 k)

/-- The three batch-include checkbox flags of a row. -/
abbrev Flags := Bool × Bool × Bool

/-- The `name -> flags` backup dict comprehension shared by both refreshers
and by `SPREADSHEET_OT_ApplyTrans.execute`: one entry per row whose key
function yields a key. -/
def backupBy {α : Type} (key : α → Option String) (flags : α → Flags)
    (items : List α) : List (String × Flags) :=
  items.filterMap fun i => (key i).map fun n => (n, flags i)

def SpreadSheetItem.flags (i : SpreadSheetItem) : Flags :=
  (i.chk_loc, i.chk_rot, i.chk_scale)

def BoneSpreadSheetItem.flags (i : BoneSpreadSheetItem) : Flags :=
  (i.bone_chk_loc, i.bone_chk_rot, i.bone_chk_scale)

/-- Key of an object row: `item.obj.name` guarded by `if item.obj`. -/
def objKey (i : SpreadSheetItem) : Option String := i.obj

/-- Key of a bone row: `item.bone_name` guarded by
`if item.armature_obj and item.bone_name` (empty string is falsy). -/
def boneKey (i : BoneSpreadSheetItem) : Option String :=
  match i.armature_obj with
  | none => none
  | some _ => if i.bone_name = "" then none else some i.bone_name

/-- `checkbox_states` of `refresh_object_list` / `checkbox_backup` of
`SPREADSHEET_OT_ApplyTrans.execute`. -/
def checkboxBackupObjects (items : List SpreadSheetItem) : List (String × Flags) :=
  backupBy objKey SpreadSheetItem.flags items

/-- `checkbox_states` of `refresh_bone_list`. -/
def checkboxBackupBones (items : List BoneSpreadSheetItem) : List (String × Flags) :=
  backupBy boneKey BoneSpreadSheetItem.flags items

/-- Stable insertion of `a` into a list sorted by `key`: it goes before the
first element whose key is not smaller, hence before later-listed elements
of equal key (Python's `sorted` is stable). -/
def insertSorted {α : Type} (key : α → String) (a : α) : List α → List α
  | [] => [a]
  | b :: bs => if key a ≤ key b then a :: b :: bs else b :: insertSorted key a bs

/-- `sorted(l, key=...)` for a string key. -/
def sortByKey {α : Type} (key : α → String) : List α → List α
  | [] => []
  | a :: as => insertSorted key a (sortByKey key as)

/-- One fresh object row added by `refresh_object_list` (the loop body over
`sorted_objects`): fresh-row defaults, cached host values, flags restored
from the backup when the object's name was backed up. -/
def mkObjectItem (backup : List (String × Flags)) (o : HostObject) : SpreadSheetItem :=
  let f := (dictGet backup o.name).getD (true, true, true)
  { obj := some o.name
    location := o.location
    rotation := if o.rotationMode = RotMode.quaternion then Vec3.zero else o.rotationEuler
    rotation_quaternion :=
      if o.rotationMode = RotMode.quaternion then o.rotationQuaternion else Vec4.zero
    scale := o.scale
    chk_loc := f.1
    chk_rot := f.2.1
    chk_scale := f.2.2 }

/-- `refresh_object_list`: back up the checkbox flags by object name, clear
the list, repopulate it from the current selection sorted by name. -/
def refresh_object_list (s : State) : State :=
  let backup := checkboxBackupObjects s.spreadsheet_items
  { s with spreadsheet_items :=
      (sortByKey HostObject.name (selectedObjects s)).map (mkObjectItem backup) }

/-- One fresh bone row added by `refresh_bone_list`. -/
def mkBoneItem (backup : List (String × Flags)) (armName : String)
    (b : PoseBone) : BoneSpreadSheetItem :=
  let f := (dictGet backup b.name).getD (true, true, true)
  { armature_obj := some armName
    bone_name := b.name
    bone_location := b.location
    bone_rotation := if b.rotationMode = RotMode.quaternion then Vec3.zero else b.rotationEuler
    bone_rotation_quaternion :=
      if b.rotationMode = RotMode.quaternion then b.rotationQuaternion else Vec4.zero
    bone_scale := b.scale
    bone_chk_loc := f.1
    bone_chk_rot := f.2.1
    bone_chk_scale := f.2.2 }

/-- `refresh_bone_list`: back up the checkbox flags by bone name, clear the
list; outside pose mode with an active armature the list stays empty,
otherwise repopulate it from the selected pose bones sorted by name. -/
def refresh_bone_list (s : State) : State :=
  let backup := checkboxBackupBones s.bone_items
  match activeArmature s with
  | none => { s with bone_items := [] }
  | some arm =>
    if s.mode = Mode.pose then
      { s with bone_items :=
          (sortByKey PoseBone.name (selectedPoseBones arm)).map (mkBoneItem backup arm.name) }
    else { s with bone_items := [] }

/-- Rows contributed by one object in `refresh_mesh_element_list`:
depending on the element-selection mode, one row per selected vertex
(index and local coordinates), per selected edge (index and inverted
smooth flag), or per selected face (index only). -/
def meshItemsOfObj (s : State) (o : HostObject) : List MeshElementItem :=
  if o.objType = ObjType.mesh ∧ o.objMode = OMode.editMode then
    if s.meshSelectVert then
      o.verts.enum.filterMap fun p =>
        if p.2.select then
          some { index := toString p.1, source_object := o.name,
                 x := p.2.co.x, y := p.2.co.y, z := p.2.co.z, is_sharp := false }
        else none
    else if s.meshSelectEdge then
      o.edges.enum.filterMap fun p =>
        if p.2.select then
          some { index := toString p.1, source_object := o.name,
                 x := 0, y := 0, z := 0, is_sharp := !p.2.smooth }
        else none
    else if s.meshSelectFace then
      o.faces.enum.filterMap fun p =>
        if p.2.select then
          some { index := toString p.1, source_object := o.name,
                 x := 0, y := 0, z := 0, is_sharp := false }
        else none
    else []
  else []

/-- `refresh_mesh_element_list`: clear the mesh-element and bone lists,
then repopulate the mesh-element list from the selected edit-mode meshes. -/
def refresh_mesh_element_list (s : State) : State :=
  { s with bone_items := [],
           vertex_items := (selectedObjects s).flatMap (meshItemsOfObj s) }

/-- `selection_change_handler`, the depsgraph-update handler: per context
mode, detect selection/transform changes against the module-level snapshot
globals, refresh the corresponding list on a change, and clear the lists
the branch clears. -/
def selection_change_handler (s : State) : State :=
  match s.mode with
  | Mode.object =>
    let currentSelected := (selectedObjects s).map HostObject.name
    let currentTransforms := (selectedObjects s).map fun o => (o.name, o.transTuple)
    let s1 :=
      if setEqb currentSelected s.lastSelectedNames &&
         dictEqb currentTransforms s.lastTransforms then s
      else
        refresh_object_list
          { s with lastSelectedNames := currentSelected,
                   lastTransforms := currentTransforms }
    if s1.bone_items.isEmpty then s1 else { s1 with bone_items := [] }
  | Mode.editMesh =>
    let s1 :=
      if s.show_spreadsheet_in_edit_mode then refresh_mesh_element_list s
      else { s with vertex_items := [] }
    if s1.bone_items.isEmpty then s1 else { s1 with bone_items := [] }
  | Mode.pose =>
    let s1 :=
      match activeArmature s with
      | some arm =>
        let names := (selectedPoseBones arm).map PoseBone.name
        let transforms := (selectedPoseBones arm).map fun b => (b.name, b.transTuple)
        if setEqb names s.lastSelectedNames &&
           dictEqb transforms s.lastTransforms then s
        else
          refresh_bone_list
            { s with lastSelectedNames := names, lastTransforms := transforms }
      | none => s
    let s2 :=
      if s1.spreadsheet_items.isEmpty then s1 else { s1 with spreadsheet_items := [] }
    if s2.vertex_items.isEmpty then s2 else { s2 with vertex_items := [] }
  | Mode.otherMode =>
    { s with spreadsheet_items := [], vertex_items := [], bone_items := [] }

/-- Operator run result: `{'FINISHED'}` or `{'CANCELLED'}`. -/
inductive OpResult
  | finished
  | cancelled
deriving DecidableEq, Repr

/-- Report level of `Operator.report`. -/
inductive RLevel
  | info
  | warning
deriving DecidableEq, Repr

abbrev Report := RLevel × String

/-- The transform channel selected by the operator's `transform` string
property; the UI invokes the operators only with 'loc', 'rot', 'scale'. -/
inductive TKind
  | loc
  | rot
  | scale
deriving DecidableEq, Repr

def tName : TKind → String
  | TKind.loc => "loc"
  | TKind.rot => "rot"
  | TKind.scale => "scale"

/-- `self.transform.capitalize()`. -/
def tCap : TKind → String
  | TKind.loc => "Loc"
  | TKind.rot => "Rot"
  | TKind.scale => "Scale"

/-- `getattr(scn, "active_only_" + transform, False)`. -/
def getActiveOnly (s : State) : TKind → Bool
  | TKind.loc => s.active_only_loc
  | TKind.rot => s.active_only_rot
  | TKind.scale => s.active_only_scale

/-- `getattr(scn, "active_only_bone_" + transform, False)`. -/
def getActiveOnlyBone (s : State) : TKind → Bool
  | TKind.loc => s.active_only_bone_loc
  | TKind.rot => s.active_only_bone_rot
  | TKind.scale => s.active_only_bone_scale

/-- The object row checkbox for a channel. -/
def SpreadSheetItem.chk (i : SpreadSheetItem) : TKind → Bool
  | TKind.loc => i.chk_loc
  | TKind.rot => i.chk_rot
  | TKind.scale => i.chk_scale

/-- The bone row checkbox for a channel. -/
def BoneSpreadSheetItem.chk (i : BoneSpreadSheetItem) : TKind → Bool
  | TKind.loc => i.bone_chk_loc
  | TKind.rot => i.bone_chk_rot
  | TKind.scale => i.bone_chk_scale

/-- `bpy.ops.object.select_all(action='DESELECT')`. -/
def deselectAllObjects (s : State) : State :=
  { s with objects := s.objects.map fun o => { o with selected := false } }

/-- `obj.select_set(True)` for the object reference, by its name key. -/
def selectObject (s : State) (n : String) : State :=
  { s with objects := s.objects.map fun o =>
      if o.name = n then { o with selected := true } else o }

/-- Host bake of one channel on one object (spec glossary: fold the
transform into the data and reset that channel to identity). -/
def bakeChannel : TKind → HostObject → HostObject
  | TKind.loc, o => { o with location := Vec3.zero }
  | TKind.rot, o => { o with rotationEuler := Vec3.zero,
                             rotationQuaternion := Vec4.identity }
  | TKind.scale, o => { o with scale := Vec3.one }

/-- Host `bpy.ops.object.transform_apply` for one channel: bakes that
channel on every selected object. -/
def transform_apply (t : TKind) (s : State) : State :=
  { s with objects := s.objects.map fun o => if o.selected then bakeChannel t o else o }

/-- The `objects_to_apply` / `checked_items` loop of
`SPREADSHEET_OT_ApplyTrans.execute`: rows with a live object reference,
filtered by the channel checkbox when Active Only is on. -/
def objectsToApply (s : State) (t : TKind) : List String :=
  s.spreadsheet_items.filterMap fun i =>
    match i.obj with
    | none => none
    | some n => if getActiveOnly s t && ! i.chk t then none else some n

/-- Fallback host object for a name; a row's pointer always resolves in the
host (it is a live reference there), so this value is never reached on the
states the theorems quantify over. -/
def dummyObj (n : String) : HostObject :=
  { name := n, objType := ObjType.otherType, objMode := OMode.objectMode,
    selected := false, rotationMode := RotMode.euler,
    location := Vec3.zero, rotationEuler := Vec3.zero,
    rotationQuaternion := Vec4.zero, scale := Vec3.zero,
    verts := [], edges := [], faces := [], poseBones := [] }

/-- The "Restore checkbox states" loop body of
`SPREADSHEET_OT_ApplyTrans.execute`: rows whose object name was backed up
get their flags restored, the others are left alone. -/
def restoreItemFlags (backup : List (String × Flags)) (i : SpreadSheetItem) :
    SpreadSheetItem :=
  match i.obj with
  | some n =>
    match dictGet backup n with
    | some f => { i with chk_loc := f.1, chk_rot := f.2.1, chk_scale := f.2.2 }
    | none => i
  | none => i

/-- The "Apply in batch" block of `SPREADSHEET_OT_ApplyTrans.execute` after
the selection has been re-pointed: make the first object active and invoke
the host bake (the oracle `applyOk` tells whether the host call raises; a
raise is caught and reported as a warning).  Returns the resulting state,
the `updated` flag, and the reports emitted so far. -/
def SPREADSHEET_OT_ApplyTrans.applyStep (t : TKind) (applyOk : Bool)
    (toApply : List String) (s1 : State) : State × Bool × List Report :=
  match toApply with
  | [] => (s1, false, ([] : List Report))
  | n :: _ =>
    let s1a := { s1 with activeObject := some n }
    if applyOk then (transform_apply t s1a, true, ([] : List Report))
    else (s1a, false, [(RLevel.warning, "Transform apply failed")])

/-- `SPREADSHEET_OT_ApplyTrans.execute`: back up checkbox states (and the
row list when Active Only), re-point the host selection to the rows to
apply, run the apply step, then restore the checkbox states and, when
Active Only, rebuild the row list from the backup (reading the live host
values of the backed-up references). -/
def SPREADSHEET_OT_ApplyTrans.execute (t : TKind) (applyOk : Bool) (s : State) :
    State × OpResult × List Report :=
  let active_only := getActiveOnly s t
  let checkbox_backup := checkboxBackupObjects s.spreadsheet_items
  let object_backup := s.spreadsheet_items.filterMap SpreadSheetItem.obj
  let toApply := objectsToApply s t
  let s1 := toApply.foldl selectObject (deselectAllObjects s)
  let step := SPREADSHEET_OT_ApplyTrans.applyStep t applyOk toApply s1
  let s3 := { step.1 with spreadsheet_items :=
      step.1.spreadsheet_items.map (restoreItemFlags checkbox_backup) }
  let s4 :=
    if active_only then
      { s3 with spreadsheet_items := object_backup.map fun n =>
          mkObjectItem checkbox_backup ((findObj s3 n).getD (dummyObj n)) }
    else s3
  let finalReport : Report :=
    if step.2.1 then (RLevel.info, tCap t ++ " applied.")
    else (RLevel.warning, "No transform was applied.")
  (s4, OpResult.finished, step.2.2 ++ [finalReport])

/-- Reset of one channel of a pose bone by `SPREADSHEET_OT_ClearBoneTrans`:
location to zero, rotation to the identity of the bone's rotation mode,
scale to one. -/
def clearChannel (t : TKind) (b : PoseBone) : PoseBone :=
  match t with
  | TKind.loc => { b with location := Vec3.zero }
  | TKind.rot =>
    if b.rotationMode = RotMode.quaternion then
      { b with rotationQuaternion := Vec4.identity }
    else
      { b with rotationEuler := Vec3.zero }
  | TKind.scale => { b with scale := Vec3.one }

/-- The `bones_to_clear` loop of `SPREADSHEET_OT_ClearBoneTrans.execute`
(bone references collected are modelled by their names): rows of the
active armature with a nonempty bone name that resolves to a pose bone,
filtered by the channel checkbox when Active Only is on. -/
def clearTargets (s : State) (t : TKind) (arm : HostObject) : List String :=
  s.bone_items.filterMap fun item =>
    if item.armature_obj ≠ some arm.name ∨ item.bone_name = "" then none
    else
      match arm.poseBones.find? (fun b => b.name == item.bone_name) with
      | none => none
      | some _ =>
        if getActiveOnlyBone s t && ! item.chk t then none else some item.bone_name

/-- `SPREADSHEET_OT_ClearBoneTrans.execute`: require pose mode with an
active armature, collect the checked rows' bones, reset the channel on
each of them directly, then force a bone-list refresh. -/
def SPREADSHEET_OT_ClearBoneTrans.execute (t : TKind) (s : State) :
    State × OpResult × List Report :=
  match activeArmature s with
  | none =>
    (s, OpResult.cancelled, [(RLevel.warning, "Not in Pose Mode or no active Armature.")])
  | some arm =>
    if s.mode ≠ Mode.pose then
      (s, OpResult.cancelled, [(RLevel.warning, "Not in Pose Mode or no active Armature.")])
    else
      let targets := clearTargets s t arm
      if targets = [] then
        (s, OpResult.cancelled,
          [(RLevel.warning, "No bones selected for " ++ tName t ++ " clear.")])
      else
        let s1 := { s with objects := s.objects.map fun o =>
          if o.name = arm.name then
            { o with poseBones := o.poseBones.map fun b =>
                if b.name ∈ targets then clearChannel t b else b }
          else o }
        (refresh_bone_list s1, OpResult.finished,
          [(RLevel.info, "Bone " ++ tCap t ++ " cleared.")])

/-- `SPREADSHEET_OT_SetBoneLocation.execute`: resolve the armature by name,
require armature type and pose mode and an existing bone, then write the
bone's location; any failed resolution cancels without mutating. -/
def SPREADSHEET_OT_SetBoneLocation.execute (armature_name bone_name : String)
    (loc : Vec3) (s : State) : State × OpResult :=
  match findObj s armature_name with
  | none => (s, OpResult.cancelled)
  | some armature_obj =>
    if armature_obj.objType ≠ ObjType.armature ∨ armature_obj.objMode ≠ OMode.poseMode then
      (s, OpResult.cancelled)
    else
      match armature_obj.poseBones.find? (fun b => b.name == bone_name) with
      | none => (s, OpResult.cancelled)
      | some _ =>
        ({ s with objects := s.objects.map fun o =>
            if o.name = armature_name then
              { o with poseBones := o.poseBones.map fun b =>
                  if b.name = bone_name then { b with location := loc } else b }
            else o }, OpResult.finished)

/-- Python `int(...)` restricted to the addon's own index strings (written
by `str(v.index)`, hence nonnegative decimal): a non-digit or empty string
models the `ValueError` the source catches. -/
def digitVal (c : Char) : Option Nat :=
  if c = '0' then some 0 else if c = '1' then some 1 else if c = '2' then some 2
  else if c = '3' then some 3 else if c = '4' then some 4 else if c = '5' then some 5
  else if c = '6' then some 6 else if c = '7' then some 7 else if c = '8' then some 8
  else if c = '9' then some 9 else none

def parseNatAux : List Char → Nat → Option Nat
  | [], acc => some acc
  | c :: cs, acc =>
    match digitVal c with
    | none => none
    | some d => parseNatAux cs (acc * 10 + d)

def parseNat (s : String) : Option Nat :=
  match s.data with
  | [] => none
  | cs => parseNatAux cs 0

/-- `MeshElementItem.update_coord`, the write-through callback of the `x`,
`y`, `z` fields (the row already carries the newly written values): a no-op
in world-space display mode, outside edit-mesh conditions, or when the
index does not resolve (the caught exception); otherwise writes the local
vertex coordinate. -/
def MeshElementItem.update_coord (self : MeshElementItem) (s : State) : State :=
  if s.spreadsheet_show_world_coords then s
  else
    match findObj s self.source_object with
    | none => s
    | some obj =>
      if obj.objType = ObjType.mesh ∧ obj.objMode = OMode.editMode then
        match parseNat self.index with
        | none => s
        | some i =>
          if i < obj.verts.length then
            { s with objects := s.objects.map fun o =>
                if o.name = self.source_object then
                  { o with verts := o.verts.enum.map fun p =>
                      if p.1 = i then { p.2 with co := ⟨self.x, self.y, self.z⟩ }
                      else p.2 }
                else o }
          else s
      else s

/-- `MeshElementItem.update_sharp`, the write-through callback of the
`is_sharp` field: writes the inverted smooth flag of the edge, or silently
does nothing when the object or index does not resolve. -/
def MeshElementItem.update_sharp (self : MeshElementItem) (s : State) : State :=
  match findObj s self.source_object with
  | none => s
  | some obj =>
    if obj.objType = ObjType.mesh ∧ obj.objMode = OMode.editMode then
      match parseNat self.index with
      | none => s
      | some i =>
        if i < obj.edges.length then
          { s with objects := s.objects.map fun o =>
              if o.name = self.source_object then
                { o with edges := o.edges.enum.map fun p =>
                    if p.1 = i then { p.2 with smooth := !self.is_sharp }
                    else p.2 }
              else o }
        else s
    else s

/-- A vertex row's write is stale: the backing object no longer exists, or
the stored index does not parse or is out of range for the object's
vertex sequence. -/
def staleVertexWriteb (s : State) (it : MeshElementItem) : Bool :=
  match findObj s it.source_object with
  | none => true
  | some o =>
    match parseNat it.index with
    | none => true
    | some i => decide (o.verts.length ≤ i)

/-- An edge row's write is stale: the backing object no longer exists, or
the stored index does not parse or is out of range for the object's edge
sequence. -/
def staleEdgeWriteb (s : State) (it : MeshElementItem) : Bool :=
  match findObj s it.source_object with
  | none => true
  | some o =>
    match parseNat it.index with
    | none => true
    | some i => decide (o.edges.length ≤ i)

/-- A bone write's backing entity is gone: the armature object no longer
exists, or it has no pose bone of the given name. -/
def staleBoneRefb (s : State) (an bn : String) : Bool :=
  match findObj s an with
  | none => true
  | some arm => (arm.poseBones.find? (fun b => b.name == bn)).isNone

/-- Forget the selection flag of a host object (used to state that an
operation changed nothing about the host objects except their selection). -/
def stripSelected (o : HostObject) : HostObject := { o with selected := false }

/-! Concrete states used by witnesses and counterexamples. -/

/-- A baseline state: empty scene, all flags off. -/
def baseState : State :=
  { mode := Mode.object, objects := [], activeObject := none,
    meshSelectVert := true, meshSelectEdge := false, meshSelectFace := false,
    spreadsheet_items := [], bone_items := [], vertex_items := [],
    show_spreadsheet_in_edit_mode := false, spreadsheet_show_world_coords := false,
    active_only_loc := false, active_only_rot := false, active_only_scale := false,
    active_only_bone_loc := false, active_only_bone_rot := false,
    active_only_bone_scale := false,
    lastSelectedNames := [], lastTransforms := [] }

/-- A plain selected mesh object named "A". -/
def wObjA : HostObject :=
  { name := "A", objType := ObjType.mesh, objMode := OMode.objectMode,
    selected := true, rotationMode := RotMode.euler,
    location := ⟨1, 2, 3⟩, rotationEuler := ⟨0, 0, 1⟩,
    rotationQuaternion := Vec4.zero, scale := ⟨1, 1, 1⟩,
    verts := [], edges := [], faces := [], poseBones := [] }

/-- A plain unselected mesh object named "B". -/
def wObjB : HostObject :=
  { name := "B", objType := ObjType.mesh, objMode := OMode.objectMode,
    selected := false, rotationMode := RotMode.euler,
    location := ⟨4, 5, 6⟩, rotationEuler := ⟨1, 0, 0⟩,
    rotationQuaternion := Vec4.zero, scale := ⟨2, 2, 2⟩,
    verts := [], edges := [], faces := [], poseBones := [] }

/-- A selected quaternion-mode pose bone named "Q". -/
def wBoneQ : PoseBone :=
  { name := "Q", selected := true, rotationMode := RotMode.quaternion,
    location := ⟨7, 0, 0⟩, rotationEuler := Vec3.zero,
    rotationQuaternion := ⟨0, 1, 0, 0⟩, scale := ⟨3, 3, 3⟩ }

/-- A selected euler-mode pose bone named "E". -/
def wBoneE : PoseBone :=
  { name := "E", selected := true, rotationMode := RotMode.euler,
    location := ⟨0, 8, 0⟩, rotationEuler := ⟨2, 0, 0⟩,
    rotationQuaternion := Vec4.zero, scale := ⟨4, 4, 4⟩ }

/-- A selected armature named "Arm" in pose mode holding both bones. -/
def wArm : HostObject :=
  { name := "Arm", objType := ObjType.armature, objMode := OMode.poseMode,
    selected := true, rotationMode := RotMode.euler,
    location := Vec3.zero, rotationEuler := Vec3.zero,
    rotationQuaternion := Vec4.zero, scale := Vec3.one,
    verts := [], edges := [], faces := [], poseBones := [wBoneQ, wBoneE] }

/-- An old object row for "A" with non-default flags. -/
def wOldRowA : SpreadSheetItem :=
  { obj := some "A", location := Vec3.zero, rotation := Vec3.zero,
    rotation_quaternion := Vec4.zero, scale := Vec3.zero,
    chk_loc := false, chk_rot := true, chk_scale := false }

/-- An old bone row for "Q" with non-default flags. -/
def wOldBoneRowQ : BoneSpreadSheetItem :=
  { armature_obj := some "Arm", bone_name := "Q",
    bone_location := Vec3.zero, bone_rotation := Vec3.zero,
    bone_rotation_quaternion := Vec4.zero, bone_scale := Vec3.zero,
    bone_chk_loc := true, bone_chk_rot := false, bone_chk_scale := true }

/-- Pose-mode state with an active armature, selected objects, and one old
row in each of the object and bone lists. -/
def w1 : State :=
  { baseState with
    mode := Mode.pose, objects := [wObjA, wArm], activeObject := some "Arm",
    spreadsheet_items := [wOldRowA], bone_items := [wOldBoneRowQ] }

/-- A mesh-element row for vertex 0 of object "A". -/
def c2item : MeshElementItem :=
  { index := "0", source_object := "A", x := 1, y := 0, z := 0, is_sharp := false }

/-- Object-mode state with an unchanged empty selection but a stale
mesh-element row left over from a previous edit-mesh session. -/
def c2state : State :=
  { baseState with mode := Mode.object, vertex_items := [c2item] }

/-- Edit-mesh-mode state with stale rows in the other lists. -/
def w2e : State :=
  { baseState with
    mode := Mode.editMesh,
    spreadsheet_items := [wOldRowA], bone_items := [wOldBoneRowQ] }

/-- Pose-mode state with stale rows in the other lists. -/
def w2p : State :=
  { baseState with
    mode := Mode.pose,
    spreadsheet_items := [wOldRowA], vertex_items := [c2item] }

/-- A state in a mode that is none of object, pose, or edit-mesh. -/
def w2x : State :=
  { baseState with
    mode := Mode.otherMode,
    spreadsheet_items := [wOldRowA], bone_items := [wOldBoneRowQ],
    vertex_items := [c2item] }

/-- An object row backed by the unselected object "B", default flags. -/
def c3rowB : SpreadSheetItem :=
  { obj := some "B", location := Vec3.zero, rotation := Vec3.zero,
    rotation_quaternion := Vec4.zero, scale := Vec3.zero,
    chk_loc := true, chk_rot := true, chk_scale := true }

/-- State whose host selection is object "A" while the row list holds a row
for the unselected object "B" only: a batch apply re-points the selection
at "B". -/
def c3state : State :=
  { baseState with objects := [wObjA, wObjB], spreadsheet_items := [c3rowB] }

/-- State with Active Only enabled for location and one row for "A". -/
def w5 : State :=
  { baseState with
    objects := [wObjA, wObjB],
    spreadsheet_items := [wOldRowA], active_only_loc := true }

/-- State with one selected object but an empty row list: a batch apply
finds zero rows to apply to. -/
def w10 : State :=
  { baseState with objects := [wObjA] }

/-- Bone row for "Q" with all channels checked. -/
def w6rowQ : BoneSpreadSheetItem :=
  { armature_obj := some "Arm", bone_name := "Q",
    bone_location := Vec3.zero, bone_rotation := Vec3.zero,
    bone_rotation_quaternion := Vec4.zero, bone_scale := Vec3.zero,
    bone_chk_loc := true, bone_chk_rot := true, bone_chk_scale := true }

/-- Bone row for "E" with all channels checked. -/
def w6rowE : BoneSpreadSheetItem :=
  { armature_obj := some "Arm", bone_name := "E",
    bone_location := Vec3.zero, bone_rotation := Vec3.zero,
    bone_rotation_quaternion := Vec4.zero, bone_scale := Vec3.zero,
    bone_chk_loc := true, bone_chk_rot := true, bone_chk_scale := true }

/-- Pose-mode state whose bone list holds checked rows for the quaternion
bone "Q" and the euler bone "E" of the active armature. -/
def w6 : State :=
  { baseState with
    mode := Mode.pose, objects := [wArm], activeObject := some "Arm",
    bone_items := [w6rowQ, w6rowE] }

/-- The mesh object "A" in edit mode with one vertex and one edge. -/
def w8obj : HostObject :=
  { wObjA with
    objMode := OMode.editMode,
    verts := [{ co := ⟨1, 0, 0⟩, select := true }],
    edges := [{ smooth := true, select := true }] }

/-- Edit-mesh state over `w8obj` and the armature. -/
def w7 : State :=
  { baseState with mode := Mode.editMesh, objects := [w8obj, wArm] }

/-- A vertex row whose stored index 5 is out of range for `w8obj`. -/
def w7vitem : MeshElementItem :=
  { index := "5", source_object := "A", x := 9, y := 9, z := 9, is_sharp := false }

/-- An edge row whose stored index does not parse as a number. -/
def w7eitem : MeshElementItem :=
  { index := "x", source_object := "A", x := 0, y := 0, z := 0, is_sharp := true }

/-- Edit-mesh state with the world-space display toggle on. -/
def w8 : State :=
  { baseState with
    mode := Mode.editMesh, objects := [w8obj],
    spreadsheet_show_world_coords := true }

/-- A vertex row write attempting to move vertex 0 of "A" to (9, 9, 9). -/
def w8item : MeshElementItem :=
  { index := "0", source_object := "A", x := 9, y := 9, z := 9, is_sharp := false }

/-! General lemmas about the dict, backup, sort and selection models. -/

theorem dictGet_eq_none_iff {α : Type} (d : List (String × α)) (n : String) :
    dictGet d n = none ↔ ∀ p ∈ d, p.1 ≠ n := by
  induction d with
  | nil => simp [dictGet]
  | cons p d ih =>
    obtain ⟨k, v⟩ := p
    show (match dictGet d n with
          | some v' => some v'
          | none => if k = n then some v else none) = none ↔ _
    cases h : dictGet d n with
    | some v' =>
      constructor
      · intro hc; exact absurd hc (by simp)
      · intro hall
        have hnone : dictGet d n = none :=
          ih.mpr fun q hq => hall q (List.mem_cons_of_mem _ hq)
        rw [hnone] at h
        cases h
    | none =>
      have hall := ih.mp h
      by_cases hk : k = n
      · rw [if_pos hk]
        constructor
        · intro hc; exact absurd hc (by simp)
        · intro hall2
          exact absurd hk (hall2 (k, v) (List.mem_cons_self _ _))
      · rw [if_neg hk]
        constructor
        · intro _ q hq
          rcases List.mem_cons.mp hq with rfl | hq'
          · exact hk
          · exact hall q hq'
        · intro _; rfl

theorem mem_backupBy {α : Type} (key : α → Option String) (flags : α → Flags)
    (items : List α) (p : String × Flags) :
    p ∈ backupBy key flags items ↔ ∃ i ∈ items, key i = some p.1 ∧ flags i = p.2 := by
  simp only [backupBy, List.mem_filterMap, Option.map_eq_some']
  constructor
  · rintro ⟨i, hi, n, hk, heq⟩
    subst heq
    exact ⟨i, hi, hk, rfl⟩
  · rintro ⟨i, hi, hk, hf⟩
    exact ⟨i, hi, p.1, hk, by rw [hf]⟩

theorem dictGet_mem {α : Type} {d : List (String × α)} {n : String} {v : α}
    (h : dictGet d n = some v) : (n, v) ∈ d := by
  induction d with
  | nil => cases h
  | cons p d ih =>
    obtain ⟨k, w⟩ := p
    simp only [dictGet] at h
    cases hd : dictGet d n with
    | some v' =>
      rw [hd] at h
      obtain rfl : v' = v := by injection h
      exact List.mem_cons_of_mem _ (ih hd)
    | none =>
      rw [hd] at h
      by_cases hk : k = n
      · rw [if_pos hk] at h
        obtain rfl : w = v := by injection h
        subst hk
        exact List.mem_cons_self _ _
      · rw [if_neg hk] at h
        cases h

theorem dictGet_backup_eq_none {α : Type} (key : α → Option String)
    (flags : α → Flags) {items : List α} {n : String}
    (h : ∀ i ∈ items, key i ≠ some n) :
    dictGet (backupBy key flags items) n = none := by
  refine (dictGet_eq_none_iff _ _).mpr fun p hp he => ?_
  obtain ⟨i, hi, hk, -⟩ := (mem_backupBy key flags items p).mp hp
  rw [he] at hk
  exact h i hi hk

theorem dictGet_backup_isSome {α : Type} (key : α → Option String)
    (flags : α → Flags) {items : List α} {n : String}
    (h : ∃ i ∈ items, key i = some n) :
    ∃ v, dictGet (backupBy key flags items) n = some v := by
  obtain ⟨i, hi, hk⟩ := h
  cases hv : dictGet (backupBy key flags items) n with
  | some v => exact ⟨v, rfl⟩
  | none =>
    have hmem : (n, flags i) ∈ backupBy key flags items :=
      (mem_backupBy key flags items (n, flags i)).mpr ⟨i, hi, hk, rfl⟩
    exact absurd rfl ((dictGet_eq_none_iff _ _).mp hv _ hmem)

theorem dictGet_backup_valueFun {α : Type} (key : α → Option String)
    (flags : α → Flags) {items : List α} (g : String → Flags)
    (hval : ∀ i ∈ items, ∀ m, key i = some m → flags i = g m)
    {n : String} {v : Flags}
    (h : dictGet (backupBy key flags items) n = some v) : v = g n := by
  obtain ⟨i, hi, hk, hf⟩ := (mem_backupBy key flags items (n, v)).mp (dictGet_mem h)
  have hf' : flags i = v := hf
  rw [← hf']
  exact hval i hi n hk

theorem dictGet_backup_of_nodup {α : Type} (key : α → Option String)
    (flags : α → Flags) {items : List α}
    (hnd : (items.filterMap key).Nodup)
    {i : α} (hi : i ∈ items) {n : String} (hk : key i = some n) :
    dictGet (backupBy key flags items) n = some (flags i) := by
  induction items with
  | nil => cases hi
  | cons a items ih =>
    cases hka : key a with
    | none =>
      have hnd' : (items.filterMap key).Nodup := by
        rwa [List.filterMap_cons, hka] at hnd
      have hbk : backupBy key flags (a :: items) = backupBy key flags items := by
        simp [backupBy, List.filterMap_cons, hka]
      rcases List.mem_cons.mp hi with rfl | hi'
      · rw [hka] at hk; cases hk
      · rw [hbk]; exact ih hnd' hi'
    | some m =>
      have hnd2 : m ∉ items.filterMap key ∧ (items.filterMap key).Nodup := by
        rw [List.filterMap_cons, hka, List.nodup_cons] at hnd
        exact hnd
      have hbk : backupBy key flags (a :: items)
          = (m, flags a) :: backupBy key flags items := by
        simp [backupBy, List.filterMap_cons, hka]
      rcases List.mem_cons.mp hi with rfl | hi'
      · rw [hka] at hk
        obtain rfl : m = n := by injection hk
        have hnone : dictGet (backupBy key flags items) m = none := by
          refine (dictGet_eq_none_iff _ _).mpr fun p hp he => ?_
          obtain ⟨j, hj, hkj, -⟩ := (mem_backupBy key flags items p).mp hp
          rw [he] at hkj
          exact hnd2.1 (List.mem_filterMap.mpr ⟨j, hj, hkj⟩)
        rw [hbk]
        simp [dictGet, hnone]
      · have := ih hnd2.2 hi'
        rw [hbk]
        simp [dictGet, this]

theorem perm_insertSorted {α : Type} (key : α → String) (a : α) (l : List α) :
    List.Perm (insertSorted key a l) (a :: l) := by
  induction l with
  | nil => exact List.Perm.refl _
  | cons b bs ih =>
    unfold insertSorted
    by_cases h : key a ≤ key b
    · rw [if_pos h]
    · rw [if_neg h]
      exact (ih.cons b).trans (List.Perm.swap a b bs)

theorem perm_sortByKey {α : Type} (key : α → String) (l : List α) :
    List.Perm (sortByKey key l) l := by
  induction l with
  | nil => exact List.Perm.refl _
  | cons a as ih =>
    exact (perm_insertSorted key a (sortByKey key as)).trans (ih.cons a)

theorem pairwise_insertSorted {α : Type} (key : α → String) (a : α) {l : List α}
    (h : l.Pairwise (fun x y => key x ≤ key y)) :
    (insertSorted key a l).Pairwise (fun x y => key x ≤ key y) := by
  induction l with
  | nil => simp [insertSorted]
  | cons b bs ih =>
    rw [List.pairwise_cons] at h
    obtain ⟨hb, hbs⟩ := h
    unfold insertSorted
    by_cases hab : key a ≤ key b
    · rw [if_pos hab]
      refine List.pairwise_cons.mpr ⟨?_, List.pairwise_cons.mpr ⟨hb, hbs⟩⟩
      intro y hy
      rcases List.mem_cons.mp hy with rfl | hy'
      · exact hab
      · exact le_trans hab (hb y hy')
    · rw [if_neg hab]
      refine List.pairwise_cons.mpr ⟨?_, ih hbs⟩
      intro y hy
      rcases List.mem_cons.mp ((perm_insertSorted key a bs).mem_iff.mp hy) with rfl | hy'
      · exact le_of_not_le hab
      · exact hb y hy'

theorem pairwise_sortByKey {α : Type} (key : α → String) (l : List α) :
    (sortByKey key l).Pairwise (fun x y => key x ≤ key y) := by
  induction l with
  | nil => simp [sortByKey]
  | cons a as ih => exact pairwise_insertSorted key a ih

theorem foldl_selectObject_objects (names : List String) (s : State) :
    (names.foldl selectObject s).objects
      = s.objects.map fun o =>
          if o.name ∈ names then { o with selected := true } else o := by
  induction names generalizing s with
  | nil =>
    simp
  | cons n ns ih =>
    rw [List.foldl_cons, ih]
    simp only [selectObject, List.map_map]
    apply List.map_congr_left
    intro o ho
    simp only [Function.comp]
    by_cases h1 : o.name = n
    · rw [if_pos h1]
      by_cases h2 : o.name ∈ ns
      · rw [if_pos (show ({ o with selected := true } : HostObject).name ∈ ns from h2),
            if_pos (List.mem_cons.mpr (Or.inl h1))]
      · rw [if_neg (show ¬ ({ o with selected := true } : HostObject).name ∈ ns from h2),
            if_pos (List.mem_cons.mpr (Or.inl h1))]
    · rw [if_neg h1]
      by_cases h2 : o.name ∈ ns
      · rw [if_pos h2, if_pos (List.mem_cons.mpr (Or.inr h2))]
      · rw [if_neg h2, if_neg (fun hc => (List.mem_cons.mp hc).elim h1 h2)]

theorem foldl_selectObject_spreadsheet_items (names : List String) (s : State) :
    (names.foldl selectObject s).spreadsheet_items = s.spreadsheet_items := by
  induction names generalizing s with
  | nil => rfl
  | cons n ns ih => rw [List.foldl_cons, ih]; rfl

theorem foldl_selectObject_activeObject (names : List String) (s : State) :
    (names.foldl selectObject s).activeObject = s.activeObject := by
  induction names generalizing s with
  | nil => rfl
  | cons n ns ih => rw [List.foldl_cons, ih]; rfl

/-! Lemmas about the refreshers. -/

theorem checkboxBackupObjects_eq (items : List SpreadSheetItem) :
    checkboxBackupObjects items = backupBy objKey SpreadSheetItem.flags items := rfl

theorem checkboxBackupBones_eq (items : List BoneSpreadSheetItem) :
    checkboxBackupBones items = backupBy boneKey BoneSpreadSheetItem.flags items := rfl

theorem flags_mkObjectItem (backup : List (String × Flags)) (o : HostObject) :
    (mkObjectItem backup o).flags = (dictGet backup o.name).getD (true, true, true) := rfl

theorem obj_mkObjectItem (backup : List (String × Flags)) (o : HostObject) :
    (mkObjectItem backup o).obj = some o.name := rfl

theorem flags_mkBoneItem (backup : List (String × Flags)) (a : String) (b : PoseBone) :
    (mkBoneItem backup a b).flags = (dictGet backup b.name).getD (true, true, true) := rfl

theorem bone_name_mkBoneItem (backup : List (String × Flags)) (a : String) (b : PoseBone) :
    (mkBoneItem backup a b).bone_name = b.name := rfl

theorem refresh_object_list_items (s : State) :
    (refresh_object_list s).spreadsheet_items
      = (sortByKey HostObject.name (selectedObjects s)).map
          (mkObjectItem (checkboxBackupObjects s.spreadsheet_items)) := rfl

theorem refresh_bone_list_items_pose (s : State) (arm : HostObject)
    (hA : activeArmature s = some arm) (hm : s.mode = Mode.pose) :
    (refresh_bone_list s).bone_items
      = (sortByKey PoseBone.name (selectedPoseBones arm)).map
          (mkBoneItem (checkboxBackupBones s.bone_items) arm.name) := by
  unfold refresh_bone_list
  rw [hA]
  simp only [hm, if_pos]

theorem refresh_bone_list_items_no_arm (s : State)
    (hA : activeArmature s = none) :
    (refresh_bone_list s).bone_items = [] := by
  unfold refresh_bone_list
  rw [hA]

theorem refresh_bone_list_items_not_pose (s : State) (arm : HostObject)
    (hA : activeArmature s = some arm) (hm : s.mode ≠ Mode.pose) :
    (refresh_bone_list s).bone_items = [] := by
  unfold refresh_bone_list
  rw [hA]
  simp only [if_neg hm]

theorem rowNames_map_mkObjectItem (backup : List (String × Flags))
    (l : List HostObject) :
    ((l.map (mkObjectItem backup)).filterMap SpreadSheetItem.obj)
      = l.map HostObject.name := by
  induction l with
  | nil => rfl
  | cons o l ih =>
    simp only [List.map_cons, List.filterMap_cons, obj_mkObjectItem, ih]

theorem boneNames_map_mkBoneItem (backup : List (String × Flags)) (a : String)
    (l : List PoseBone) :
    ((l.map (mkBoneItem backup a)).map BoneSpreadSheetItem.bone_name)
      = l.map PoseBone.name := by
  rw [List.map_map]
  exact List.map_congr_left fun b _ => rfl

/-- C1: across a refresh of the object row list or the bone row list, a
row's three batch-include flags are preserved exactly when a row of the
same key (object name, bone name) existed before the refresh; a
post-refresh row whose key had no pre-refresh row gets all three flags set
to `True`, the property default. -/
theorem spreadsheet_C1 (s : State) :
    ((s.spreadsheet_items.filterMap objKey).Nodup →
      ∀ i' ∈ (refresh_object_list s).spreadsheet_items, ∀ n, i'.obj = some n →
        (∀ i ∈ s.spreadsheet_items, objKey i = some n → i'.flags = i.flags) ∧
        ((∀ i ∈ s.spreadsheet_items, objKey i ≠ some n) →
          i'.flags = (true, true, true)))
    ∧
    ((s.bone_items.filterMap boneKey).Nodup →
      ∀ i' ∈ (refresh_bone_list s).bone_items,
        (∀ i ∈ s.bone_items, boneKey i = some i'.bone_name → i'.flags = i.flags) ∧
        ((∀ i ∈ s.bone_items, boneKey i ≠ some i'.bone_name) →
          i'.flags = (true, true, true))) := by
  constructor
  · intro hnd i' hi' n hn
    rw [refresh_object_list_items] at hi'
    obtain ⟨o, ho, rfl⟩ := List.mem_map.mp hi'
    rw [obj_mkObjectItem] at hn
    obtain rfl : o.name = n := by injection hn
    constructor
    · intro i hi hk
      have hd := dictGet_backup_of_nodup objKey SpreadSheetItem.flags hnd hi hk
      rw [flags_mkObjectItem, checkboxBackupObjects_eq, hd]
      rfl
    · intro hnone
      have hd := dictGet_backup_eq_none objKey SpreadSheetItem.flags hnone
      rw [flags_mkObjectItem, checkboxBackupObjects_eq, hd]
      rfl
  · intro hnd i' hi'
    cases hA : activeArmature s with
    | none =>
      rw [refresh_bone_list_items_no_arm s hA] at hi'
      cases hi'
    | some arm =>
      by_cases hm : s.mode = Mode.pose
      · rw [refresh_bone_list_items_pose s arm hA hm] at hi'
        obtain ⟨b, hb, rfl⟩ := List.mem_map.mp hi'
        rw [bone_name_mkBoneItem]
        constructor
        · intro i hi hk
          have hd := dictGet_backup_of_nodup boneKey BoneSpreadSheetItem.flags hnd hi hk
          rw [flags_mkBoneItem, checkboxBackupBones_eq, hd]
          rfl
        · intro hnone
          have hd := dictGet_backup_eq_none boneKey BoneSpreadSheetItem.flags hnone
          rw [flags_mkBoneItem, checkboxBackupBones_eq, hd]
          rfl
      · rw [refresh_bone_list_items_not_pose s arm hA hm] at hi'
        cases hi'

/-- Witness for C1 at a concrete pose-mode state with one old object row
and one old bone row. -/
theorem spreadsheet_C1_witness :
    ((w1.spreadsheet_items.filterMap objKey).Nodup)
    ∧ (∀ i' ∈ (refresh_object_list w1).spreadsheet_items, ∀ n, i'.obj = some n →
        (∀ i ∈ w1.spreadsheet_items, objKey i = some n → i'.flags = i.flags) ∧
        ((∀ i ∈ w1.spreadsheet_items, objKey i ≠ some n) →
          i'.flags = (true, true, true)))
    ∧ ((w1.bone_items.filterMap boneKey).Nodup)
    ∧ (∀ i' ∈ (refresh_bone_list w1).bone_items,
        (∀ i ∈ w1.bone_items, boneKey i = some i'.bone_name → i'.flags = i.flags) ∧
        ((∀ i ∈ w1.bone_items, boneKey i ≠ some i'.bone_name) →
          i'.flags = (true, true, true))) :=
  ⟨by decide, (spreadsheet_C1 w1).1 (by decide), by decide,
    (spreadsheet_C1 w1).2 (by decide)⟩

theorem update_items_eq_self (x : State) {l : List SpreadSheetItem}
    (h : l = x.spreadsheet_items) : { x with spreadsheet_items := l } = x := by
  rw [h]

theorem update_bone_eq_self (x : State) {l : List BoneSpreadSheetItem}
    (h : l = x.bone_items) : { x with bone_items := l } = x := by
  rw [h]

theorem refresh_object_list_eq (s : State) :
    refresh_object_list s
      = { s with spreadsheet_items :=
            ((sortByKey HostObject.name (selectedObjects s)).map
              (mkObjectItem (checkboxBackupObjects s.spreadsheet_items))) } := rfl

theorem refresh_bone_list_eq_no_arm (s : State) (hA : activeArmature s = none) :
    refresh_bone_list s = { s with bone_items := [] } := by
  unfold refresh_bone_list
  rw [hA]

theorem refresh_bone_list_eq_not_pose (s : State) (arm : HostObject)
    (hA : activeArmature s = some arm) (hm : s.mode ≠ Mode.pose) :
    refresh_bone_list s = { s with bone_items := [] } := by
  unfold refresh_bone_list
  rw [hA]
  simp only [if_neg hm]

theorem refresh_bone_list_eq_pose (s : State) (arm : HostObject)
    (hA : activeArmature s = some arm) (hm : s.mode = Mode.pose) :
    refresh_bone_list s
      = { s with bone_items :=
            ((sortByKey PoseBone.name (selectedPoseBones arm)).map
              (mkBoneItem (checkboxBackupBones s.bone_items) arm.name)) } := by
  unfold refresh_bone_list
  rw [hA]
  simp only [hm, if_pos]

theorem boneKey_mkBoneItem (backup : List (String × Flags)) (a : String)
    (b : PoseBone) :
    boneKey (mkBoneItem backup a b)
      = if b.name = "" then none else some b.name := rfl

theorem boneKey_ne_empty {i : BoneSpreadSheetItem} {m : String}
    (h : boneKey i = some m) : m ≠ "" := by
  unfold boneKey at h
  cases ha : i.armature_obj with
  | none => rw [ha] at h; cases h
  | some x =>
    rw [ha] at h
    by_cases hb : i.bone_name = ""
    · rw [if_pos hb] at h; cases h
    · rw [if_neg hb] at h
      obtain rfl : i.bone_name = m := by injection h
      exact hb

theorem mkObjectItem_congr {b1 b2 : List (String × Flags)} (o : HostObject)
    (h : (dictGet b1 o.name).getD (true, true, true)
       = (dictGet b2 o.name).getD (true, true, true)) :
    mkObjectItem b1 o = mkObjectItem b2 o := by
  unfold mkObjectItem
  rw [h]

theorem mkBoneItem_congr {b1 b2 : List (String × Flags)} (a : String) (b : PoseBone)
    (h : (dictGet b1 b.name).getD (true, true, true)
       = (dictGet b2 b.name).getD (true, true, true)) :
    mkBoneItem b1 a b = mkBoneItem b2 a b := by
  unfold mkBoneItem
  rw [h]

theorem refresh_object_list_idem (s : State) :
    refresh_object_list (refresh_object_list s) = refresh_object_list s := by
  rw [refresh_object_list_eq (refresh_object_list s)]
  apply update_items_eq_self
  rw [refresh_object_list_items s]
  have hsel : selectedObjects (refresh_object_list s) = selectedObjects s := rfl
  rw [hsel]
  apply List.map_congr_left
  intro o ho
  apply mkObjectItem_congr
  have hvalfun : ∀ i ∈ (sortByKey HostObject.name (selectedObjects s)).map
      (mkObjectItem (checkboxBackupObjects s.spreadsheet_items)),
      ∀ m, objKey i = some m →
        SpreadSheetItem.flags i
          = (dictGet (checkboxBackupObjects s.spreadsheet_items) m).getD
              (true, true, true) := by
    intro i hi m hm
    obtain ⟨o', ho', rfl⟩ := List.mem_map.mp hi
    have hm' : some o'.name = some m := hm
    obtain rfl : o'.name = m := by injection hm'
    exact flags_mkObjectItem _ o'
  have hex : ∃ i ∈ (sortByKey HostObject.name (selectedObjects s)).map
      (mkObjectItem (checkboxBackupObjects s.spreadsheet_items)),
      objKey i = some o.name :=
    ⟨mkObjectItem (checkboxBackupObjects s.spreadsheet_items) o,
      List.mem_map_of_mem _ ho, obj_mkObjectItem _ o⟩
  obtain ⟨v, hv⟩ := dictGet_backup_isSome objKey SpreadSheetItem.flags hex
  have hveq := dictGet_backup_valueFun objKey SpreadSheetItem.flags
    (fun m => (dictGet (checkboxBackupObjects s.spreadsheet_items) m).getD
      (true, true, true)) hvalfun hv
  rw [checkboxBackupObjects_eq ((sortByKey HostObject.name (selectedObjects s)).map
      (mkObjectItem (checkboxBackupObjects s.spreadsheet_items))),
    hv, Option.getD_some, hveq]

theorem refresh_bone_list_idem (s : State) :
    refresh_bone_list (refresh_bone_list s) = refresh_bone_list s := by
  cases hA : activeArmature s with
  | none =>
    have h1 := refresh_bone_list_eq_no_arm s hA
    have hA2 : activeArmature (refresh_bone_list s) = none := by rw [h1]; exact hA
    rw [refresh_bone_list_eq_no_arm _ hA2, h1]
  | some arm =>
    by_cases hm : s.mode = Mode.pose
    · have h1 := refresh_bone_list_eq_pose s arm hA hm
      have hA2 : activeArmature (refresh_bone_list s) = some arm := by
        rw [h1]; exact hA
      have hm2 : (refresh_bone_list s).mode = Mode.pose := by rw [h1]; exact hm
      rw [refresh_bone_list_eq_pose _ arm hA2 hm2]
      apply update_bone_eq_self
      have hsel : selectedPoseBones arm = selectedPoseBones arm := rfl
      rw [refresh_bone_list_items_pose s arm hA hm]
      apply List.map_congr_left
      intro x hx
      apply mkBoneItem_congr
      by_cases hx0 : x.name = ""
      · have h2 : dictGet (checkboxBackupBones
            ((sortByKey PoseBone.name (selectedPoseBones arm)).map
              (mkBoneItem (checkboxBackupBones s.bone_items) arm.name))) x.name
            = none := by
          rw [checkboxBackupBones_eq]
          apply dictGet_backup_eq_none
          intro i hi hc
          rw [hx0] at hc
          exact absurd rfl (boneKey_ne_empty hc)
        have h3 : dictGet (checkboxBackupBones s.bone_items) x.name = none := by
          rw [checkboxBackupBones_eq]
          apply dictGet_backup_eq_none
          intro i hi hc
          rw [hx0] at hc
          exact absurd rfl (boneKey_ne_empty hc)
        rw [h2, h3]
      · have hvalfun : ∀ i ∈ (sortByKey PoseBone.name (selectedPoseBones arm)).map
            (mkBoneItem (checkboxBackupBones s.bone_items) arm.name),
            ∀ m, boneKey i = some m →
              BoneSpreadSheetItem.flags i
                = (dictGet (checkboxBackupBones s.bone_items) m).getD
                    (true, true, true) := by
          intro i hi m hmm
          obtain ⟨y, hy, rfl⟩ := List.mem_map.mp hi
          rw [boneKey_mkBoneItem] at hmm
          by_cases hy0 : y.name = ""
          · rw [if_pos hy0] at hmm; cases hmm
          · rw [if_neg hy0] at hmm
            obtain rfl : y.name = m := by injection hmm
            exact flags_mkBoneItem _ arm.name y
        have hex : ∃ i ∈ (sortByKey PoseBone.name (selectedPoseBones arm)).map
            (mkBoneItem (checkboxBackupBones s.bone_items) arm.name),
            boneKey i = some x.name :=
          ⟨mkBoneItem (checkboxBackupBones s.bone_items) arm.name x,
            List.mem_map_of_mem _ hx,
            by rw [boneKey_mkBoneItem, if_neg hx0]⟩
        obtain ⟨v, hv⟩ := dictGet_backup_isSome boneKey BoneSpreadSheetItem.flags hex
        have hveq := dictGet_backup_valueFun boneKey BoneSpreadSheetItem.flags
          (fun m => (dictGet (checkboxBackupBones s.bone_items) m).getD
            (true, true, true)) hvalfun hv
        rw [checkboxBackupBones_eq, hv, Option.getD_some, hveq]
    · have h1 := refresh_bone_list_eq_not_pose s arm hA hm
      have hA2 : activeArmature (refresh_bone_list s) = some arm := by
        rw [h1]; exact hA
      have hm2 : (refresh_bone_list s).mode ≠ Mode.pose := by rw [h1]; exact hm
      rw [refresh_bone_list_eq_not_pose _ arm hA2 hm2, h1]

/-- C9: refreshing the object row list (resp. the bone row list) twice in a
row with no intervening host-state change produces the identical row list
and state (same order, same cached values, same checkbox flags) as
refreshing once. -/
theorem spreadsheet_C9 (s : State) :
    refresh_object_list (refresh_object_list s) = refresh_object_list s
    ∧ refresh_bone_list (refresh_bone_list s) = refresh_bone_list s :=
  ⟨refresh_object_list_idem s, refresh_bone_list_idem s⟩

/-- C4: a refresh of the object row list yields exactly one row per
selected object, keyed by its name, in ascending name order, and rows only
for currently selected names (deselected entities have no row); likewise
for the bone row list in pose mode with an active armature. -/
theorem spreadsheet_C4 (s : State) :
    (((selectedObjects s).map HostObject.name).Nodup →
      (refresh_object_list s).spreadsheet_items.length = (selectedObjects s).length
      ∧ List.Sorted (· ≤ ·)
          ((refresh_object_list s).spreadsheet_items.filterMap SpreadSheetItem.obj)
      ∧ (∀ n, n ∈ (refresh_object_list s).spreadsheet_items.filterMap SpreadSheetItem.obj
            ↔ n ∈ (selectedObjects s).map HostObject.name)
      ∧ ((refresh_object_list s).spreadsheet_items.filterMap SpreadSheetItem.obj).Nodup)
    ∧
    (∀ arm, activeArmature s = some arm → s.mode = Mode.pose →
      ((selectedPoseBones arm).map PoseBone.name).Nodup →
      (refresh_bone_list s).bone_items.length = (selectedPoseBones arm).length
      ∧ List.Sorted (· ≤ ·)
          ((refresh_bone_list s).bone_items.map BoneSpreadSheetItem.bone_name)
      ∧ (∀ n, n ∈ (refresh_bone_list s).bone_items.map BoneSpreadSheetItem.bone_name
            ↔ n ∈ (selectedPoseBones arm).map PoseBone.name)
      ∧ ((refresh_bone_list s).bone_items.map BoneSpreadSheetItem.bone_name).Nodup) := by
  constructor
  · intro hnd
    rw [refresh_object_list_items, rowNames_map_mkObjectItem]
    have hperm : List.Perm
        ((sortByKey HostObject.name (selectedObjects s)).map HostObject.name)
        ((selectedObjects s).map HostObject.name) :=
      (perm_sortByKey HostObject.name (selectedObjects s)).map HostObject.name
    refine ⟨?_, ?_, ?_, ?_⟩
    · rw [List.length_map]
      exact (perm_sortByKey HostObject.name (selectedObjects s)).length_eq
    · rw [List.Sorted, List.pairwise_map]
      exact pairwise_sortByKey HostObject.name (selectedObjects s)
    · intro n
      exact hperm.mem_iff
    · exact hperm.nodup_iff.mpr hnd
  · intro arm hA hm hnd
    rw [refresh_bone_list_items_pose s arm hA hm, boneNames_map_mkBoneItem]
    have hperm : List.Perm
        ((sortByKey PoseBone.name (selectedPoseBones arm)).map PoseBone.name)
        ((selectedPoseBones arm).map PoseBone.name) :=
      (perm_sortByKey PoseBone.name (selectedPoseBones arm)).map PoseBone.name
    refine ⟨?_, ?_, ?_, ?_⟩
    · rw [List.length_map]
      exact (perm_sortByKey PoseBone.name (selectedPoseBones arm)).length_eq
    · rw [List.Sorted, List.pairwise_map]
      exact pairwise_sortByKey PoseBone.name (selectedPoseBones arm)
    · intro n
      exact hperm.mem_iff
    · exact hperm.nodup_iff.mpr hnd

/-- Witness for C4 at the same concrete pose-mode state. -/
theorem spreadsheet_C4_witness :
    (((selectedObjects w1).map HostObject.name).Nodup)
    ∧ ((refresh_object_list w1).spreadsheet_items.length = (selectedObjects w1).length
      ∧ List.Sorted (· ≤ ·)
          ((refresh_object_list w1).spreadsheet_items.filterMap SpreadSheetItem.obj)
      ∧ (∀ n, n ∈ (refresh_object_list w1).spreadsheet_items.filterMap SpreadSheetItem.obj
            ↔ n ∈ (selectedObjects w1).map HostObject.name)
      ∧ ((refresh_object_list w1).spreadsheet_items.filterMap SpreadSheetItem.obj).Nodup)
    ∧ (activeArmature w1 = some wArm)
    ∧ (w1.mode = Mode.pose)
    ∧ (((selectedPoseBones wArm).map PoseBone.name).Nodup)
    ∧ ((refresh_bone_list w1).bone_items.length = (selectedPoseBones wArm).length
      ∧ List.Sorted (· ≤ ·)
          ((refresh_bone_list w1).bone_items.map BoneSpreadSheetItem.bone_name)
      ∧ (∀ n, n ∈ (refresh_bone_list w1).bone_items.map BoneSpreadSheetItem.bone_name
            ↔ n ∈ (selectedPoseBones wArm).map PoseBone.name)
      ∧ ((refresh_bone_list w1).bone_items.map BoneSpreadSheetItem.bone_name).Nodup) :=
  ⟨by decide, (spreadsheet_C4 w1).1 (by decide), by decide, by decide, by decide,
    (spreadsheet_C4 w1).2 wArm (by decide) (by decide) (by decide)⟩

/-! Lemmas and theorems for the scene-update handler's list clearing. -/

theorem clearIf_bone_bone (x : State) :
    (if x.bone_items.isEmpty then x else { x with bone_items := [] }).bone_items
      = [] := by
  by_cases h : x.bone_items.isEmpty
  · rw [if_pos h]
    exact List.isEmpty_iff.mp h
  · rw [if_neg h]

theorem clearIf_bone_vertex (x : State) :
    (if x.bone_items.isEmpty then x else { x with bone_items := [] }).vertex_items
      = x.vertex_items := by
  by_cases h : x.bone_items.isEmpty
  · rw [if_pos h]
  · rw [if_neg h]

theorem clearIf_bone_spreadsheet (x : State) :
    (if x.bone_items.isEmpty then x
     else { x with bone_items := [] }).spreadsheet_items
      = x.spreadsheet_items := by
  by_cases h : x.bone_items.isEmpty
  · rw [if_pos h]
  · rw [if_neg h]

theorem clearIf_spreadsheet_spreadsheet (x : State) :
    (if x.spreadsheet_items.isEmpty then x
     else { x with spreadsheet_items := [] }).spreadsheet_items = [] := by
  by_cases h : x.spreadsheet_items.isEmpty
  · rw [if_pos h]
    exact List.isEmpty_iff.mp h
  · rw [if_neg h]

theorem clearIf_vertex_vertex (x : State) :
    (if x.vertex_items.isEmpty then x
     else { x with vertex_items := [] }).vertex_items = [] := by
  by_cases h : x.vertex_items.isEmpty
  · rw [if_pos h]
    exact List.isEmpty_iff.mp h
  · rw [if_neg h]

theorem clearIf_vertex_spreadsheet (x : State) :
    (if x.vertex_items.isEmpty then x
     else { x with vertex_items := [] }).spreadsheet_items
      = x.spreadsheet_items := by
  by_cases h : x.vertex_items.isEmpty
  · rw [if_pos h]
  · rw [if_neg h]

/-- Counterexample for C2 as stated: in object mode with nothing selected
and an up-to-date snapshot, the handler leaves a stale mesh-element row in
place (only the bone list is cleared in the object-mode branch). -/
theorem spreadsheet_C2_cex :
    c2state.mode = Mode.object
    ∧ (selection_change_handler c2state).vertex_items ≠ [] := by decide

/-- C2 as amended: the handler clears, per mode, exactly these lists: in
object mode only the bone list (the mesh-element list is left unchanged);
in edit-mesh mode only the bone list, and the mesh-element list is cleared
or rebuilt by its own branch while the object list is left unchanged; in
pose mode the object and mesh-element lists; in any other mode all three
lists. -/
theorem spreadsheet_C2_amended (s : State) :
    (s.mode = Mode.object →
       (selection_change_handler s).bone_items = []
       ∧ (selection_change_handler s).vertex_items = s.vertex_items)
    ∧ (s.mode = Mode.editMesh →
       (selection_change_handler s).bone_items = []
       ∧ (selection_change_handler s).spreadsheet_items = s.spreadsheet_items)
    ∧ (s.mode = Mode.pose →
       (selection_change_handler s).spreadsheet_items = []
       ∧ (selection_change_handler s).vertex_items = [])
    ∧ (s.mode = Mode.otherMode →
       (selection_change_handler s).spreadsheet_items = []
       ∧ (selection_change_handler s).vertex_items = []
       ∧ (selection_change_handler s).bone_items = []) := by
  refine ⟨?_, ?_, ?_, ?_⟩ <;> intro hm <;>
    simp only [selection_change_handler, hm]
  · constructor
    · exact clearIf_bone_bone _
    · rw [clearIf_bone_vertex]
      split <;> rfl
  · constructor
    · exact clearIf_bone_bone _
    · rw [clearIf_bone_spreadsheet]
      split <;> rfl
  · constructor
    · rw [clearIf_vertex_spreadsheet]
      exact clearIf_spreadsheet_spreadsheet _
    · exact clearIf_vertex_vertex _
  · exact ⟨trivial, trivial, trivial⟩

/-- Witness for the amended C2 at one concrete state per mode. -/
theorem spreadsheet_C2_amended_witness :
    ((selection_change_handler c2state).bone_items = []
      ∧ (selection_change_handler c2state).vertex_items = c2state.vertex_items)
    ∧ ((selection_change_handler w2e).bone_items = []
      ∧ (selection_change_handler w2e).spreadsheet_items = w2e.spreadsheet_items)
    ∧ ((selection_change_handler w2p).spreadsheet_items = []
      ∧ (selection_change_handler w2p).vertex_items = [])
    ∧ ((selection_change_handler w2x).spreadsheet_items = []
      ∧ (selection_change_handler w2x).vertex_items = []
      ∧ (selection_change_handler w2x).bone_items = []) :=
  ⟨(spreadsheet_C2_amended c2state).1 rfl,
    (spreadsheet_C2_amended w2e).2.1 rfl,
    (spreadsheet_C2_amended w2p).2.2.1 rfl,
    (spreadsheet_C2_amended w2x).2.2.2 rfl⟩

/-! Lemmas about the batch-apply operator. -/

theorem applyStep_spreadsheet_items (t : TKind) (ok : Bool) (ta : List String)
    (s1 : State) :
    (SPREADSHEET_OT_ApplyTrans.applyStep t ok ta s1).1.spreadsheet_items
      = s1.spreadsheet_items := by
  cases ta with
  | nil => rfl
  | cons n ns => cases ok <;> rfl

theorem applyStep_objects_false (t : TKind) (ta : List String) (s1 : State) :
    (SPREADSHEET_OT_ApplyTrans.applyStep t false ta s1).1.objects = s1.objects := by
  cases ta <;> rfl

theorem applyStep_updated_false (t : TKind) (ta : List String) (s1 : State) :
    (SPREADSHEET_OT_ApplyTrans.applyStep t false ta s1).2.1 = false := by
  cases ta <;> rfl

theorem applyStep_reports_false (t : TKind) {ta : List String} (s1 : State)
    (h : ta ≠ []) :
    (SPREADSHEET_OT_ApplyTrans.applyStep t false ta s1).2.2
      = [(RLevel.warning, "Transform apply failed")] := by
  cases ta with
  | nil => exact absurd rfl h
  | cons n ns => rfl

theorem objects_ite_items (c : Prop) [Decidable c] (x : State)
    (l1 : List SpreadSheetItem) :
    (if c then { x with spreadsheet_items := l1 } else x).objects = x.objects := by
  by_cases h : c
  · rw [if_pos h]
  · rw [if_neg h]

theorem applyTrans_result (t : TKind) (ok : Bool) (s : State) :
    (SPREADSHEET_OT_ApplyTrans.execute t ok s).2.1 = OpResult.finished := rfl

theorem applyTrans_reports_eq (t : TKind) (ok : Bool) (s : State) :
    (SPREADSHEET_OT_ApplyTrans.execute t ok s).2.2
      = (SPREADSHEET_OT_ApplyTrans.applyStep t ok (objectsToApply s t)
          ((objectsToApply s t).foldl selectObject (deselectAllObjects s))).2.2
        ++ [if (SPREADSHEET_OT_ApplyTrans.applyStep t ok (objectsToApply s t)
              ((objectsToApply s t).foldl selectObject (deselectAllObjects s))).2.1
            then (RLevel.info, tCap t ++ " applied.")
            else (RLevel.warning, "No transform was applied.")] := rfl

theorem applyTrans_objects_nil (t : TKind) (ok : Bool) (s : State)
    (h : objectsToApply s t = []) :
    ((SPREADSHEET_OT_ApplyTrans.execute t ok s).1).objects
      = s.objects.map (fun o => { o with selected := false }) := by
  unfold SPREADSHEET_OT_ApplyTrans.execute
  rw [h]
  rw [objects_ite_items]
  rfl

theorem applyTrans_objects_false (t : TKind) (s : State) :
    ((SPREADSHEET_OT_ApplyTrans.execute t false s).1).objects
      = s.objects.map (fun o =>
          if o.name ∈ objectsToApply s t then { o with selected := true }
          else { o with selected := false }) := by
  unfold SPREADSHEET_OT_ApplyTrans.execute
  rw [objects_ite_items]
  show (SPREADSHEET_OT_ApplyTrans.applyStep t false (objectsToApply s t)
      ((objectsToApply s t).foldl selectObject (deselectAllObjects s))).1.objects = _
  rw [applyStep_objects_false, foldl_selectObject_objects]
  show (s.objects.map fun o => { o with selected := false }).map _ = _
  rw [List.map_map]
  apply List.map_congr_left
  intro o ho
  simp only [Function.comp]

theorem applyTrans_strip_false (t : TKind) (s : State) :
    ((SPREADSHEET_OT_ApplyTrans.execute t false s).1).objects.map stripSelected
      = s.objects.map stripSelected := by
  rw [applyTrans_objects_false, List.map_map]
  apply List.map_congr_left
  intro o ho
  simp only [Function.comp]
  by_cases h : o.name ∈ objectsToApply s t
  · rw [if_pos h]; rfl
  · rw [if_neg h]; rfl

theorem restoreItemFlags_obj (b : List (String × Flags)) (i : SpreadSheetItem) :
    (restoreItemFlags b i).obj = i.obj := by
  cases h : i.obj with
  | none => simp only [restoreItemFlags, h]
  | some n =>
    cases hd : dictGet b n with
    | none => simp only [restoreItemFlags, h, hd]
    | some f => simp only [restoreItemFlags, h, hd]

theorem restoreItemFlags_flags {b : List (String × Flags)} {i : SpreadSheetItem}
    {n : String} {f : Flags} (hn : i.obj = some n) (hd : dictGet b n = some f) :
    (restoreItemFlags b i).flags = f := by
  simp only [restoreItemFlags, hn, hd]
  rfl

theorem applyTrans_items_not_activeOnly (t : TKind) (ok : Bool) (s : State)
    (hA : getActiveOnly s t = false) :
    ((SPREADSHEET_OT_ApplyTrans.execute t ok s).1).spreadsheet_items
      = s.spreadsheet_items.map
          (restoreItemFlags (checkboxBackupObjects s.spreadsheet_items)) := by
  unfold SPREADSHEET_OT_ApplyTrans.execute
  rw [hA]
  show List.map (restoreItemFlags (checkboxBackupObjects s.spreadsheet_items))
      (SPREADSHEET_OT_ApplyTrans.applyStep t ok (objectsToApply s t)
        ((objectsToApply s t).foldl selectObject (deselectAllObjects s))).1.spreadsheet_items
    = _
  rw [applyStep_spreadsheet_items, foldl_selectObject_spreadsheet_items]
  rfl

theorem applyTrans_items_activeOnly (t : TKind) (ok : Bool) (s : State)
    (hA : getActiveOnly s t = true) :
    ∃ host : State,
      ((SPREADSHEET_OT_ApplyTrans.execute t ok s).1).spreadsheet_items
        = (s.spreadsheet_items.filterMap SpreadSheetItem.obj).map (fun n =>
            mkObjectItem (checkboxBackupObjects s.spreadsheet_items)
              ((findObj host n).getD (dummyObj n))) := by
  unfold SPREADSHEET_OT_ApplyTrans.execute
  rw [hA]
  exact ⟨_, rfl⟩

theorem findObj_getD_name (s : State) (n : String) :
    ((findObj s n).getD (dummyObj n)).name = n := by
  cases h : findObj s n with
  | none => rfl
  | some o =>
    have hp := List.find?_some h
    simp only [Option.getD_some]
    exact eq_of_beq hp

theorem applyTrans_flags_preserved (t : TKind) (ok : Bool) (s : State)
    (hnd : (s.spreadsheet_items.filterMap objKey).Nodup) :
    ∀ i' ∈ ((SPREADSHEET_OT_ApplyTrans.execute t ok s).1).spreadsheet_items,
      ∀ i ∈ s.spreadsheet_items, ∀ n, i'.obj = some n → i.obj = some n →
        i'.flags = i.flags := by
  intro i' hi' i hi n hn' hn
  cases hA : getActiveOnly s t with
  | true =>
    obtain ⟨host, heq⟩ := applyTrans_items_activeOnly t ok s hA
    rw [heq] at hi'
    obtain ⟨m, hm, rfl⟩ := List.mem_map.mp hi'
    have hname : ((findObj host m).getD (dummyObj m)).name = m :=
      findObj_getD_name host m
    rw [obj_mkObjectItem, hname] at hn'
    obtain rfl : m = n := by injection hn'
    rw [flags_mkObjectItem, hname, checkboxBackupObjects_eq,
      dictGet_backup_of_nodup objKey SpreadSheetItem.flags hnd hi hn]
    rfl
  | false =>
    rw [applyTrans_items_not_activeOnly t ok s hA] at hi'
    obtain ⟨i0, hi0, rfl⟩ := List.mem_map.mp hi'
    rw [restoreItemFlags_obj] at hn'
    have hd0 := dictGet_backup_of_nodup objKey SpreadSheetItem.flags hnd hi0 hn'
    have hd := dictGet_backup_of_nodup objKey SpreadSheetItem.flags hnd hi hn
    rw [restoreItemFlags_flags hn' (by rw [checkboxBackupObjects_eq]; exact hd0)]
    have hss : some (SpreadSheetItem.flags i0) = some (SpreadSheetItem.flags i) := by
      rw [← hd0, ← hd]
    injection hss

theorem filterMap_map_some_of_isSome {α β : Type} (f : α → Option β) (l : List α)
    (h : ∀ i ∈ l, (f i).isSome = true) :
    (l.filterMap f).map some = l.map f := by
  induction l with
  | nil => rfl
  | cons a l ih =>
    have ha := h a (List.mem_cons_self _ _)
    cases hf : f a with
    | none => rw [hf] at ha; cases ha
    | some b =>
      rw [List.filterMap_cons, hf, List.map_cons, List.map_cons, hf,
        ih fun i hi => h i (List.mem_cons_of_mem _ hi)]

theorem applyTrans_objrefs_activeOnly (t : TKind) (ok : Bool) (s : State)
    (hA : getActiveOnly s t = true)
    (hall : ∀ i ∈ s.spreadsheet_items, (i.obj).isSome = true) :
    ((SPREADSHEET_OT_ApplyTrans.execute t ok s).1).spreadsheet_items.map
        SpreadSheetItem.obj
      = s.spreadsheet_items.map SpreadSheetItem.obj := by
  obtain ⟨host, heq⟩ := applyTrans_items_activeOnly t ok s hA
  rw [heq, List.map_map]
  have hcongr : ∀ n ∈ s.spreadsheet_items.filterMap SpreadSheetItem.obj,
      (SpreadSheetItem.obj ∘ fun n => mkObjectItem
        (checkboxBackupObjects s.spreadsheet_items)
        ((findObj host n).getD (dummyObj n))) n = some n := by
    intro n hn
    simp only [Function.comp]
    rw [obj_mkObjectItem, findObj_getD_name]
  rw [List.map_congr_left hcongr]
  exact filterMap_map_some_of_isSome SpreadSheetItem.obj s.spreadsheet_items hall

/-- C5: during a batch apply the checkbox flags of the rows are backed up
before the selection is mutated and restored afterward whatever the
outcome (rows with the same key end with equal flags); and when Active
Only is set the full row list is snapshotted and rebuilt, so the rows'
object references are unchanged by the operation. -/
theorem spreadsheet_C5 (t : TKind) (ok : Bool) (s : State)
    (hnd : (s.spreadsheet_items.filterMap objKey).Nodup) :
    (∀ i' ∈ ((SPREADSHEET_OT_ApplyTrans.execute t ok s).1).spreadsheet_items,
       ∀ i ∈ s.spreadsheet_items, ∀ n, i'.obj = some n → i.obj = some n →
         i'.flags = i.flags)
    ∧ (getActiveOnly s t = true →
       (∀ i ∈ s.spreadsheet_items, (i.obj).isSome = true) →
       ((SPREADSHEET_OT_ApplyTrans.execute t ok s).1).spreadsheet_items.map
           SpreadSheetItem.obj
         = s.spreadsheet_items.map SpreadSheetItem.obj) :=
  ⟨applyTrans_flags_preserved t ok s hnd,
    fun hA hall => applyTrans_objrefs_activeOnly t ok s hA hall⟩

/-- Witness for C5 at a concrete Active Only state. -/
theorem spreadsheet_C5_witness :
    ((w5.spreadsheet_items.filterMap objKey).Nodup)
    ∧ (getActiveOnly w5 TKind.loc = true)
    ∧ (∀ i ∈ w5.spreadsheet_items, (i.obj).isSome = true)
    ∧ (((SPREADSHEET_OT_ApplyTrans.execute TKind.loc true w5).1).spreadsheet_items.map
          SpreadSheetItem.obj
        = w5.spreadsheet_items.map SpreadSheetItem.obj) :=
  ⟨by decide, by decide, by decide,
    (spreadsheet_C5 TKind.loc true w5 (by decide)).2 (by decide) (by decide)⟩

/-- Counterexample for C3 as stated: with the selection on "A" and a row
for the unselected "B", a raising apply is caught and reported, but the
host selection is NOT rolled back — it stays re-pointed at "B". -/
theorem spreadsheet_C3_cex :
    (RLevel.warning, "Transform apply failed")
        ∈ (SPREADSHEET_OT_ApplyTrans.execute TKind.loc false c3state).2.2
    ∧ (selectedObjects c3state).map HostObject.name = ["A"]
    ∧ (selectedObjects
        (SPREADSHEET_OT_ApplyTrans.execute TKind.loc false c3state).1).map
          HostObject.name = ["B"] := by decide

/-- C3 as amended: when the host apply call raises, the operator catches
it, reports a warning and still finishes; the always-run restore steps
restore the checkbox states (and the row list when Active Only) and the
host object transforms are untouched, but the host selection change is NOT
rolled back: the selection remains exactly the apply subset. -/
theorem spreadsheet_C3_amended (t : TKind) (s : State)
    (hnd : (s.spreadsheet_items.filterMap objKey).Nodup)
    (hne : objectsToApply s t ≠ []) :
    (SPREADSHEET_OT_ApplyTrans.execute t false s).2.1 = OpResult.finished
    ∧ (RLevel.warning, "Transform apply failed")
        ∈ (SPREADSHEET_OT_ApplyTrans.execute t false s).2.2
    ∧ (∀ i' ∈ ((SPREADSHEET_OT_ApplyTrans.execute t false s).1).spreadsheet_items,
        ∀ i ∈ s.spreadsheet_items, ∀ n, i'.obj = some n → i.obj = some n →
          i'.flags = i.flags)
    ∧ (∀ o ∈ ((SPREADSHEET_OT_ApplyTrans.execute t false s).1).objects,
        o.selected = true ↔ o.name ∈ objectsToApply s t)
    ∧ ((SPREADSHEET_OT_ApplyTrans.execute t false s).1).objects.map stripSelected
        = s.objects.map stripSelected := by
  refine ⟨applyTrans_result t false s, ?_, applyTrans_flags_preserved t false s hnd,
    ?_, applyTrans_strip_false t s⟩
  · rw [applyTrans_reports_eq, applyStep_reports_false t _ hne]
    exact List.mem_append_left _ (List.mem_singleton_self _)
  · intro o ho
    rw [applyTrans_objects_false] at ho
    obtain ⟨o0, ho0, rfl⟩ := List.mem_map.mp ho
    by_cases h : o0.name ∈ objectsToApply s t
    · rw [if_pos h]
      constructor
      · intro _; exact h
      · intro _; rfl
    · rw [if_neg h]
      constructor
      · intro hc; cases hc
      · intro hc; exact absurd hc h

/-- Witness for the amended C3 at the concrete counterexample state. -/
theorem spreadsheet_C3_amended_witness :
    ((c3state.spreadsheet_items.filterMap objKey).Nodup)
    ∧ (objectsToApply c3state TKind.loc ≠ [])
    ∧ ((SPREADSHEET_OT_ApplyTrans.execute TKind.loc false c3state).2.1
          = OpResult.finished
      ∧ (RLevel.warning, "Transform apply failed")
          ∈ (SPREADSHEET_OT_ApplyTrans.execute TKind.loc false c3state).2.2
      ∧ (∀ i' ∈ (SPREADSHEET_OT_ApplyTrans.execute TKind.loc false c3state).1.spreadsheet_items,
          ∀ i ∈ c3state.spreadsheet_items, ∀ n, i'.obj = some n → i.obj = some n →
            i'.flags = i.flags)
      ∧ (∀ o ∈ ((SPREADSHEET_OT_ApplyTrans.execute TKind.loc false c3state).1).objects,
          o.selected = true ↔ o.name ∈ objectsToApply c3state TKind.loc)
      ∧ ((SPREADSHEET_OT_ApplyTrans.execute TKind.loc false c3state).1).objects.map
            stripSelected
          = c3state.objects.map stripSelected) :=
  ⟨by decide, by decide,
    spreadsheet_C3_amended TKind.loc c3state (by decide) (by decide)⟩

/-- C10: the batch-apply operator always returns FINISHED, never
CANCELLED; with zero matching rows it reports the no-transform warning and
has nonetheless already deselected every host object; when the host apply
raised it likewise only reports warnings and finishes. -/
theorem spreadsheet_C10 (t : TKind) (ok : Bool) (s : State) :
    (SPREADSHEET_OT_ApplyTrans.execute t ok s).2.1 = OpResult.finished
    ∧ (objectsToApply s t = [] →
        (∀ o ∈ ((SPREADSHEET_OT_ApplyTrans.execute t ok s).1).objects,
          o.selected = false)
        ∧ (RLevel.warning, "No transform was applied.")
            ∈ (SPREADSHEET_OT_ApplyTrans.execute t ok s).2.2)
    ∧ (ok = false →
        (RLevel.warning, "No transform was applied.")
          ∈ (SPREADSHEET_OT_ApplyTrans.execute t ok s).2.2) := by
  refine ⟨applyTrans_result t ok s, ?_, ?_⟩
  · intro h
    constructor
    · intro o ho
      rw [applyTrans_objects_nil t ok s h] at ho
      obtain ⟨o0, ho0, rfl⟩ := List.mem_map.mp ho
      rfl
    · rw [applyTrans_reports_eq, h]
      show (RLevel.warning, "No transform was applied.")
        ∈ [(RLevel.warning, "No transform was applied.")]
      exact List.mem_singleton_self _
  · intro hok
    subst hok
    rw [applyTrans_reports_eq, applyStep_updated_false]
    refine List.mem_append_right _ ?_
    show (RLevel.warning, "No transform was applied.")
      ∈ [(RLevel.warning, "No transform was applied.")]
    exact List.mem_singleton_self _

/-- Witness for C10 at a concrete zero-row state, for both a succeeding
and a raising host apply. -/
theorem spreadsheet_C10_witness :
    (objectsToApply w10 TKind.rot = [])
    ∧ ((∀ o ∈ ((SPREADSHEET_OT_ApplyTrans.execute TKind.rot true w10).1).objects,
          o.selected = false)
      ∧ (RLevel.warning, "No transform was applied.")
          ∈ (SPREADSHEET_OT_ApplyTrans.execute TKind.rot true w10).2.2)
    ∧ ((RLevel.warning, "No transform was applied.")
        ∈ (SPREADSHEET_OT_ApplyTrans.execute TKind.rot false w10).2.2) :=
  ⟨by decide, (spreadsheet_C10 TKind.rot true w10).2.1 (by decide),
    (spreadsheet_C10 TKind.rot false w10).2.2 rfl⟩

/-! Lemmas and theorems for the bone-clear operator and the stale-write
no-op behaviour. -/

theorem refresh_bone_list_objects (s : State) :
    (refresh_bone_list s).objects = s.objects := by
  cases hA : activeArmature s with
  | none => rw [refresh_bone_list_eq_no_arm s hA]
  | some arm =>
    by_cases hm : s.mode = Mode.pose
    · rw [refresh_bone_list_eq_pose s arm hA hm]
    · rw [refresh_bone_list_eq_not_pose s arm hA hm]

theorem clearChannel_loc (b : PoseBone) :
    (clearChannel TKind.loc b).location = Vec3.zero := rfl

theorem clearChannel_scale (b : PoseBone) :
    (clearChannel TKind.scale b).scale = Vec3.one := rfl

theorem clearChannel_rot_quat {b : PoseBone}
    (h : b.rotationMode = RotMode.quaternion) :
    (clearChannel TKind.rot b).rotationQuaternion = Vec4.identity := by
  unfold clearChannel
  rw [if_pos h]

theorem clearChannel_rot_euler {b : PoseBone}
    (h : b.rotationMode ≠ RotMode.quaternion) :
    (clearChannel TKind.rot b).rotationEuler = Vec3.zero := by
  unfold clearChannel
  rw [if_neg h]

theorem clearChannel_rotMode (t : TKind) (b : PoseBone) :
    (clearChannel t b).rotationMode = b.rotationMode := by
  cases t with
  | loc => rfl
  | scale => rfl
  | rot =>
    unfold clearChannel
    by_cases h : b.rotationMode = RotMode.quaternion
    · rw [if_pos h]
    · rw [if_neg h]

theorem clearChannel_name (t : TKind) (b : PoseBone) :
    (clearChannel t b).name = b.name := by
  cases t with
  | loc => rfl
  | scale => rfl
  | rot =>
    unfold clearChannel
    by_cases h : b.rotationMode = RotMode.quaternion
    · rw [if_pos h]
    · rw [if_neg h]

theorem clearBoneTrans_state_eq (t : TKind) (s : State) (arm : HostObject)
    (hA : activeArmature s = some arm) (hm : s.mode = Mode.pose)
    (hT : clearTargets s t arm ≠ []) :
    (SPREADSHEET_OT_ClearBoneTrans.execute t s).1
      = refresh_bone_list { s with objects := s.objects.map fun o =>
          if o.name = arm.name then
            { o with poseBones := o.poseBones.map fun b =>
                if b.name ∈ clearTargets s t arm then clearChannel t b else b }
          else o } := by
  simp only [SPREADSHEET_OT_ClearBoneTrans.execute, hA, hm, hT, ne_eq,
    not_true_eq_false, if_false, ite_false]

/-- C6: when the bone-clear operator runs in pose mode with an active
armature, every cleared bone's channel holds the identity value
afterwards: location (0,0,0), rotation quaternion (1,0,0,0) for a
quaternion-mode bone and euler (0,0,0) otherwise, scale (1,1,1). -/
theorem spreadsheet_C6 (t : TKind) (s : State) (arm : HostObject)
    (hA : activeArmature s = some arm) (hm : s.mode = Mode.pose) :
    ∀ o' ∈ ((SPREADSHEET_OT_ClearBoneTrans.execute t s).1).objects,
      o'.name = arm.name →
      ∀ b ∈ o'.poseBones, b.name ∈ clearTargets s t arm →
        (t = TKind.loc → b.location = Vec3.zero)
        ∧ (t = TKind.rot →
            (b.rotationMode = RotMode.quaternion →
              b.rotationQuaternion = Vec4.identity)
            ∧ (b.rotationMode ≠ RotMode.quaternion → b.rotationEuler = Vec3.zero))
        ∧ (t = TKind.scale → b.scale = Vec3.one) := by
  intro o' ho' hname b hb htarget
  by_cases hT : clearTargets s t arm = []
  · rw [hT] at htarget
    exact absurd htarget (List.not_mem_nil _)
  · rw [clearBoneTrans_state_eq t s arm hA hm hT, refresh_bone_list_objects] at ho'
    obtain ⟨o0, ho0, rfl⟩ := List.mem_map.mp ho'
    by_cases ha : o0.name = arm.name
    · rw [if_pos ha] at hb
      replace hb : b ∈ o0.poseBones.map fun b =>
          if b.name ∈ clearTargets s t arm then clearChannel t b else b := hb
      obtain ⟨b0, hb0, rfl⟩ := List.mem_map.mp hb
      by_cases hbt : b0.name ∈ clearTargets s t arm
      · rw [if_pos hbt] at htarget ⊢
        refine ⟨?_, ?_, ?_⟩
        · rintro rfl
          exact clearChannel_loc b0
        · rintro rfl
          constructor
          · intro hq
            rw [clearChannel_rotMode] at hq
            exact clearChannel_rot_quat hq
          · intro hq
            rw [clearChannel_rotMode] at hq
            exact clearChannel_rot_euler hq
        · rintro rfl
          exact clearChannel_scale b0
      · rw [if_neg hbt] at htarget
        exact absurd htarget hbt
    · rw [if_neg ha] at hname
      exact absurd hname ha

/-- Witness for C6 at a concrete pose-mode state clearing the rotation of a
quaternion-mode and an euler-mode bone. -/
theorem spreadsheet_C6_witness :
    (activeArmature w6 = some wArm) ∧ (w6.mode = Mode.pose)
    ∧ (∀ o' ∈ ((SPREADSHEET_OT_ClearBoneTrans.execute TKind.rot w6).1).objects,
        o'.name = wArm.name →
        ∀ b ∈ o'.poseBones, b.name ∈ clearTargets w6 TKind.rot wArm →
          (TKind.rot = TKind.loc → b.location = Vec3.zero)
          ∧ (TKind.rot = TKind.rot →
              (b.rotationMode = RotMode.quaternion →
                b.rotationQuaternion = Vec4.identity)
              ∧ (b.rotationMode ≠ RotMode.quaternion →
                b.rotationEuler = Vec3.zero))
          ∧ (TKind.rot = TKind.scale → b.scale = Vec3.one)) :=
  ⟨by decide, by decide, spreadsheet_C6 TKind.rot w6 wArm (by decide) (by decide)⟩

/-- C7: a write routed through a row whose backing entity is gone or whose
stored index does not resolve is silently discarded: the state, host data
and row lists included, is unchanged, and the bone-write operator cancels
without mutating. -/
theorem spreadsheet_C7 :
    (∀ (s : State) (it : MeshElementItem),
      staleVertexWriteb s it = true → it.update_coord s = s)
    ∧ (∀ (s : State) (it : MeshElementItem),
      staleEdgeWriteb s it = true → it.update_sharp s = s)
    ∧ (∀ (s : State) (an bn : String) (loc : Vec3),
      staleBoneRefb s an bn = true →
        SPREADSHEET_OT_SetBoneLocation.execute an bn loc s
          = (s, OpResult.cancelled)) := by
  refine ⟨?_, ?_, ?_⟩
  · intro s it h
    by_cases hw : s.spreadsheet_show_world_coords
    · simp [MeshElementItem.update_coord, hw]
    · cases hf : findObj s it.source_object with
      | none => simp [MeshElementItem.update_coord, hw, hf]
      | some o =>
        simp only [staleVertexWriteb, hf] at h
        cases hp : parseNat it.index with
        | none => simp [MeshElementItem.update_coord, hw, hf, hp]
        | some i =>
          rw [hp] at h
          have hle := of_decide_eq_true h
          simp [MeshElementItem.update_coord, hw, hf, hp, not_lt.mpr hle]
  · intro s it h
    cases hf : findObj s it.source_object with
    | none => simp [MeshElementItem.update_sharp, hf]
    | some o =>
      simp only [staleEdgeWriteb, hf] at h
      cases hp : parseNat it.index with
      | none => simp [MeshElementItem.update_sharp, hf, hp]
      | some i =>
        rw [hp] at h
        have hle := of_decide_eq_true h
        simp [MeshElementItem.update_sharp, hf, hp, not_lt.mpr hle]
  · intro s an bn loc h
    cases hf : findObj s an with
    | none => simp [SPREADSHEET_OT_SetBoneLocation.execute, hf]
    | some arm =>
      simp only [staleBoneRefb, hf] at h
      have hfind : arm.poseBones.find? (fun b => b.name == bn) = none :=
        Option.isNone_iff_eq_none.mp h
      by_cases hc : arm.objType ≠ ObjType.armature ∨ arm.objMode ≠ OMode.poseMode
      · simp [SPREADSHEET_OT_SetBoneLocation.execute, hf, hc]
      · simp [SPREADSHEET_OT_SetBoneLocation.execute, hf, hc, hfind]

/-- Witness for C7: an out-of-range vertex index, an unparseable edge
index, and a bone name absent from the armature. -/
theorem spreadsheet_C7_witness :
    (staleVertexWriteb w7 w7vitem = true)
    ∧ (w7vitem.update_coord w7 = w7)
    ∧ (staleEdgeWriteb w7 w7eitem = true)
    ∧ (w7eitem.update_sharp w7 = w7)
    ∧ (staleBoneRefb w7 "Arm" "NoBone" = true)
    ∧ (SPREADSHEET_OT_SetBoneLocation.execute "Arm" "NoBone" ⟨1, 1, 1⟩ w7
        = (w7, OpResult.cancelled)) :=
  ⟨by decide, spreadsheet_C7.1 w7 w7vitem (by decide),
    by decide, spreadsheet_C7.2.1 w7 w7eitem (by decide),
    by decide, spreadsheet_C7.2.2 w7 "Arm" "NoBone" ⟨1, 1, 1⟩ (by decide)⟩

/-- C8: with the world-space display toggle on, a write to a vertex row's
x, y or z field has no effect at all — in particular the underlying local
vertex coordinate in the mesh is untouched. -/
theorem spreadsheet_C8 (s : State) (it : MeshElementItem)
    (h : s.spreadsheet_show_world_coords = true) :
    it.update_coord s = s := by
  unfold MeshElementItem.update_coord
  rw [if_pos h]

/-- Witness for C8: a write of (9,9,9) to vertex 0 while world-space
display is on leaves the whole state unchanged. -/
theorem spreadsheet_C8_witness :
    (w8.spreadsheet_show_world_coords = true)
    ∧ (w8item.update_coord w8 = w8) :=
  ⟨by decide, spreadsheet_C8 w8 w8item (by decide)⟩

end Spreadsheet
